import Mathlib

/-!
Verification development for the IATI-Stats statistic computation and
aggregation engine (`stats/analytics.py`, `helpers/currency_conversion`),
embedded shallowly: Python `Decimal` values become `ℚ`, Python `float`
arithmetic becomes exact rational arithmetic followed by IEEE-754
double-precision rounding (`floatRound`), XML records become explicit
structures of the fields the statistics read, and Python dictionaries
become association lists.
-/

/-! ## Calendar dates (Python `datetime.date`) -/

/-- A calendar date, as Python's `datetime.date`. -/
structure PyDate where
  year : Int
  month : Nat
  day : Nat
deriving DecidableEq

/-- Gregorian leap-year test. -/
def isLeapYear (y : Int) : Bool :=
  y % 4 = 0 && (y % 100 != 0 || y % 400 = 0)

/-- Number of days in a month of a given year. -/
def daysInMonth (y : Int) (m : Nat) : Nat :=
  if m = 2 then (if isLeapYear y then 29 else 28)
  else if m = 4 || m = 6 || m = 9 || m = 11 then 30
  else 31

/-- Days in year `y` that precede month `m`. -/
def daysBeforeMonth (y : Int) (m : Nat) : Nat :=
  ((List.range (m - 1)).map (fun i => daysInMonth y (i + 1))).sum

/-- Days before January 1 of year `y` in the proleptic Gregorian calendar
(so that 0001-01-01 has ordinal 1, as in Python's `date.toordinal`). -/
def daysBeforeYear (y : Int) : Int :=
  365 * (y - 1) + (y - 1).fdiv 4 - (y - 1).fdiv 100 + (y - 1).fdiv 400

/-- Python's `date.toordinal`. -/
def toOrdinal (d : PyDate) : Int :=
  daysBeforeYear d.year + (daysBeforeMonth d.year d.month : Int) + (d.day : Int)

/-- Inverse of `toOrdinal` (civil-from-days). -/
def ofOrdinal (n : Int) : PyDate :=
  let z := n + 305
  let era := z.fdiv 146097
  let doe := z - era * 146097
  let yoe := (doe - doe.fdiv 1460 + doe.fdiv 36524 - doe.fdiv 146096).fdiv 365
  let y := yoe + era * 400
  let doy := doe - (365 * yoe + yoe.fdiv 4 - yoe.fdiv 100)
  let mp := (5 * doy + 2).fdiv 153
  let dd := doy - (153 * mp + 2).fdiv 5 + 1
  let mm := if mp < 10 then mp + 3 else mp - 9
  ⟨y + (if mm ≤ 2 then 1 else 0), mm.toNat, dd.toNat⟩

/-- Add `k` days to a date (Python `date + timedelta(days=k)`). -/
def addDays (d : PyDate) (k : Int) : PyDate :=
  ofOrdinal (toOrdinal d + k)

/-- Day difference `a - b` (Python `(a - b).days`). -/
def dateDiff (a b : PyDate) : Int :=
  toOrdinal a - toOrdinal b

/-- `add_years` from `stats/analytics.py`: return the same calendar date in the
destination year if it exists (`d.replace`), otherwise add the day distance
between the two January firsts (turning February 29 into March 1). -/
def add_years (d : PyDate) (years : Int) : PyDate :=
  if d.day ≤ daysInMonth (d.year + years) d.month then
    ⟨d.year + years, d.month, d.day⟩
  else
    addDays d (toOrdinal ⟨d.year + years, 1, 1⟩ - toOrdinal ⟨d.year, 1, 1⟩)

/-- Date order, as Python compares `date` values. -/
def dateLe (a b : PyDate) : Bool :=
  toOrdinal a ≤ toOrdinal b

/-- Strict date order. -/
def dateLt (a b : PyDate) : Bool :=
  toOrdinal a < toOrdinal b

/-! ## IEEE-754 double-precision model

Python `float`s are IEEE-754 binary64 values; every finite double is a
rational, and each arithmetic operation computes the exact rational result
and rounds it to 53 significant bits (round-to-nearest, ties-to-even).
Overflow and subnormals are irrelevant at the magnitudes involved. -/

/-- Powers of two with integer exponent, as a rational. -/
def pow2 (e : Int) : ℚ :=
  if 0 ≤ e then ((2 ^ e.toNat : Nat) : ℚ) else ((2 ^ (-e).toNat : Nat) : ℚ)⁻¹

/-- Base-2 integer logarithm by repeated halving, structurally recursive on
an explicit fuel so that it evaluates inside the kernel. -/
def log2Fuel : Nat → Nat → Nat
  | 0, _ => 0
  | fuel + 1, n => if n ≤ 1 then 0 else log2Fuel fuel (n / 2) + 1

/-- `⌊log2 n⌋` (0 at 0): `n` itself always suffices as fuel. -/
def natLog2 (n : Nat) : Nat :=
  log2Fuel n n

/-- Floor of the base-2 logarithm of `n / d` (both positive): the unique
`e` with `2 ^ e ≤ n / d < 2 ^ (e + 1)`. -/
def floorLog2 (n d : Nat) : Int :=
  let g : Int := (natLog2 n : Int) - (natLog2 d : Int)
  if n * 2 ^ (-g).toNat < d * 2 ^ g.toNat then g - 1 else g

/-- Round an exact rational to the nearest IEEE-754 binary64 value
(53-bit significand, round to nearest, ties to even; overflow and
subnormals not modelled).  The magnitude `n / d` is scaled by `2 ^ t` so
that it lies in `[2 ^ 52, 2 ^ 53)`, rounded to an integer significand `m`
half-to-even using integer division, and the result is `± m * 2 ^ (-t)`. -/
def floatRound (q : ℚ) : ℚ :=
  if q = 0 then 0
  else
    let n := q.num.natAbs
    let d := q.den
    let e := floorLog2 n d
    let t := 52 - e
    let N := n * 2 ^ t.toNat
    let D := d * 2 ^ (-t).toNat
    let m0 := N / D
    let r2 := 2 * (N % D)
    let m := if r2 < D then m0 else if D < r2 then m0 + 1
      else if m0 % 2 = 0 then m0 else m0 + 1
    let mag : ℚ := Rat.divInt ((m : Int) * 2 ^ (-t).toNat) (2 ^ t.toNat)
    if q < 0 then -mag else mag

/-- Double-precision division. -/
def floatDiv (a b : ℚ) : ℚ :=
  floatRound (a / b)

/-- Double-precision multiplication. -/
def floatMul (a b : ℚ) : ℚ :=
  floatRound (a * b)

/-! ## Currency conversion (`helpers/currency_conversion/__init__.py`)

The exchange-rate table is loaded from a CSV at import time (excluded from
the core per the spec, §1), so it is a parameter here: currency code →
year → rate, the rate being the binary64 value parsed by `float(row["Rate"])`. -/

/-- Exchange-rate table: currency → (year → rate). -/
abbrev RateTable := List (String × List (Int × ℚ))

/-- Table lookup `currency_values[input_currency][int(year)]`; `none` models
the `KeyError` cases (currency absent, or year absent for that currency). -/
def lookupRate (table : RateTable) (currency : String) (year : Int) : Option ℚ :=
  (table.lookup currency).bind (fun byYear => byYear.lookup year)

/-- `get_USD_value` from `helpers/currency_conversion/__init__.py`:
`(1 / currency_values[input_currency][int(year)]) * float(input_value)` with
`KeyError` and `ZeroDivisionError` both mapped to 0; the final
`Decimal(usd_value)` cast is exact, so the result is the rounded rational
itself. -/
def get_USD_value (table : RateTable) (input_currency : String) (input_value : ℚ)
    (year : Int) : ℚ :=
  match lookupRate table input_currency year with
  | none => 0
  | some rate => if rate = 0 then 0 else floatMul (floatDiv 1 rate) (floatRound input_value)

/-- Modelled from the spec: the exact-decimal-arithmetic conversion
`result = amount / rate` that §4.4 describes (with the same zero fallbacks),
stated for refinement comparison with `get_USD_value`, which instead runs
the quotient through binary floating point. -/
def get_USD_value_exact (table : RateTable) (input_currency : String) (input_value : ℚ)
    (year : Int) : ℚ :=
  match lookupRate table input_currency year with
  | none => 0
  | some rate => if rate = 0 then 0 else input_value / rate

/-! ## Python `Decimal` string parsing (`decimal.Decimal(str)`)

`Decimal` accepts an optionally signed decimal literal with optional
fractional part and exponent, or the special values `Infinity`/`NaN`/`sNaN`,
case-insensitively, after stripping surrounding whitespace and removing
underscores; anything else raises `InvalidOperation` (modelled as `none`). -/

/-- A Python `Decimal` value: finite rational, infinity, or (signaling) NaN. -/
inductive PyDec where
  | fin (q : ℚ)
  | inf (neg : Bool)
  | nan (signaling : Bool)
deriving DecidableEq

/-- Whitespace characters stripped by Python's `str.strip()` (ASCII range). -/
def isPyWs (c : Char) : Bool :=
  c = ' ' || c = '\t' || c = '\n' || c = '\r' || c = '\x0b' || c = '\x0c'

/-- Value of a digit string. -/
def digitsToNat (l : List Char) : Nat :=
  l.foldl (fun a c => 10 * a + (c.toNat - '0'.toNat)) 0

/-- Powers of ten with integer exponent, as a rational. -/
def pow10 (e : Int) : ℚ :=
  if 0 ≤ e then ((10 ^ e.toNat : Nat) : ℚ) else ((10 ^ (-e).toNat : Nat) : ℚ)⁻¹

/-- Parse the body of a decimal literal (sign already consumed, lowercased). -/
def pyDecBody (neg : Bool) (cs : List Char) : Option PyDec :=
  if cs = "inf".toList || cs = "infinity".toList then some (.inf neg)
  else if cs.take 3 = "nan".toList && (cs.drop 3).all (fun c => c.isDigit) then some (.nan false)
  else if cs.take 4 = "snan".toList && (cs.drop 4).all (fun c => c.isDigit) then some (.nan true)
  else
    let (ip, r1) := cs.span (fun c : Char => c.isDigit)
    let (fp, r2) := match r1 with
      | '.' :: rest => rest.span (fun c : Char => c.isDigit)
      | _ => ([], r1)
    if ip = [] && fp = [] then none
    else
      let mk : Int → Option PyDec := fun e =>
        some (.fin ((if neg then -1 else 1) * (digitsToNat (ip ++ fp) : ℚ) *
          pow10 (e - fp.length)))
      match r2 with
      | [] => mk 0
      | 'e' :: r3 =>
        let (eneg, r4) := match r3 with
          | '+' :: rest => (false, rest)
          | '-' :: rest => (true, rest)
          | rest => (false, rest)
        let (ed, r5) := r4.span (fun c : Char => c.isDigit)
        if ed = [] || r5 ≠ [] then none
        else mk (if eneg then -(digitsToNat ed : Int) else (digitsToNat ed : Int))
      | _ => none

/-- `decimal.Decimal` on a character list: `none` models the
`InvalidOperation` of the constructor on a malformed string. -/
def pythonDecimalChars (l : List Char) : Option PyDec :=
  let cs := (((l.dropWhile isPyWs).reverse.dropWhile isPyWs).reverse.filter
    (· ≠ '_')).map Char.toLower
  match cs with
  | '+' :: rest => pyDecBody false rest
  | '-' :: rest => pyDecBody true rest
  | rest => pyDecBody false rest

/-- `decimal.Decimal(s)`. -/
def pythonDecimal (s : String) : Option PyDec :=
  pythonDecimalChars s.toList

/-- Python `x.split(sep)` with an explicit one-character separator: split at
every occurrence, keeping empty parts. -/
def splitOnChar (sep : Char) : List Char → List (List Char)
  | [] => [[]]
  | c :: rest =>
    if c = sep then [] :: splitOnChar sep rest
    else
      match splitOnChar sep rest with
      | [] => [[c]]
      | t :: ts => (c :: t) :: ts

/-- Is this value a (quiet or signaling) NaN?  Ordering comparisons on NaN
raise `InvalidOperation` in the `decimal` module, and `==` raises on a
signaling NaN and is `False` on a quiet one, so in `valid_coords` every
NaN operand ends in `return False`. -/
def pyDecIsNan : PyDec → Bool
  | .nan _ => true
  | _ => false

/-- Python `d == 0` for a non-NaN `Decimal`. -/
def pyDecEqZero : PyDec → Bool
  | .fin q => q = 0
  | _ => false

/-- Python `d < bound` for a non-NaN `Decimal`. -/
def pyDecLt (d : PyDec) (bound : ℚ) : Bool :=
  match d with
  | .fin q => q < bound
  | .inf neg => neg
  | .nan _ => false

/-- Python `d > bound` for a non-NaN `Decimal`. -/
def pyDecGt (d : PyDec) (bound : ℚ) : Bool :=
  match d with
  | .fin q => bound < q
  | .inf neg => !neg
  | .nan _ => false

/-- `valid_coords` from `stats/analytics.py`: split on a single space, parse
both parts as `Decimal`, reject parse failures (`InvalidOperation`), the
`(0, 0)` point, coordinates outside `[-90, 90] × [-180, 180]`, and any NaN
(whose comparison raises `InvalidOperation`, caught to `False`). -/
def valid_coords (x : String) : Bool :=
  match splitOnChar ' ' x.toList with
  | [c0, c1] =>
    match pythonDecimalChars c0, pythonDecimalChars c1 with
    | some lat, some lng =>
      if pyDecIsNan lat || pyDecIsNan lng then false
      else if pyDecEqZero lat && pyDecEqZero lng then false
      else if pyDecLt lat (-90) || pyDecGt lat 90 || pyDecLt lng (-180) || pyDecGt lng 180 then
        false
      else true
    | _, _ => false
  | _ => false

/-- `valid_coords` applied to an element text that may be absent
(`x.split` on `None` raises `AttributeError`, caught to `False`). -/
def valid_coords_text : Option String → Bool
  | none => false
  | some s => valid_coords s

/-! ## Record model

An `iati-activity` record, as the statistics in `stats/analytics.py` read
it: each field holds the result of the xpath/`find` accesses the statistics
perform.  Fields named `...XSD` hold the verdict of the external XML-schema
validity oracles (`valid_date`, `valid_value`, `valid_url`), which delegate
to `lxml`'s schema validator; `isoDate`/`transDate`/`budgetYear` hold the
results of the date helpers in `stats.common` (outside this repository's
`src`), i.e. the parsed dates the elements carry. -/

/-- A `sector` element (activity- or transaction-level). -/
structure SectorElem where
  vocabulary : Option String
  code : Option String
  percentage : Option ℚ
deriving DecidableEq

/-- A `value` element of a transaction or budget. -/
structure ValueElem where
  currency : Option String
  valueDate : Option String
  amount : Option ℚ
  validDateXSD : Bool
  validValueXSD : Bool
deriving DecidableEq

/-- A `provider-org` element of a transaction. -/
structure ProviderOrg where
  ref : Option String
  providerActivityId : Option String
deriving DecidableEq

/-- A `transaction` element. -/
structure TransactionElem where
  tType : Option (Option String)
  humanitarianAttr : Option String
  sectors : List SectorElem
  hasRecipientCountry : Bool
  hasRecipientRegion : Bool
  values : List ValueElem
  providerOrg : Option ProviderOrg
  aidTypeCodes : List String
  transDate : Option PyDate
  transactionDateValidXSD : List Bool
deriving DecidableEq

/-- An `activity-date` element. -/
structure ActivityDateElem where
  typeAttr : Option String
  isoDate : Option PyDate
  validXSD : Bool
deriving DecidableEq

/-- A `budget` element. -/
structure BudgetElem where
  typeAttr : Option String
  budgetYear : Option Int
  periodStartValidXSD : Bool
  periodEndValidXSD : Bool
  value : Option ValueElem
deriving DecidableEq

/-- A `document-link` element. -/
structure DocumentLinkElem where
  validUrlXSD : Bool
  categoryCodes : List (Option String)
deriving DecidableEq

/-- A `narrative` child of a title or description. -/
structure NarrativeElem where
  lang : Option String
deriving DecidableEq

/-- A `title` or `description` element. -/
structure TextElem where
  lang : Option String
  narratives : List NarrativeElem
  hasDirectText : Bool
  hasNarrativeText : Bool
deriving DecidableEq

/-- A `reporting-org` element. -/
structure ReportingOrgElem where
  ref : Option String
  hasDirectText : Bool
  hasNarrativeText : Bool
deriving DecidableEq

/-- A `participating-org` element. -/
structure ParticipatingOrgElem where
  role : Option String
  ref : Option String
deriving DecidableEq

/-- A `recipient-country` element. -/
structure RecipientCountryElem where
  code : Option String
  percentage : Option ℚ
deriving DecidableEq

/-- A `recipient-region` element. -/
structure RecipientRegionElem where
  percentage : Option ℚ
deriving DecidableEq

/-- A `location` element. -/
structure LocationElem where
  pointPos : Option (Option String)
  hasName : Bool
  hasDescription : Bool
  hasAdministrative : Bool
deriving DecidableEq

/-- One `iati-activity` record. -/
structure Activity where
  parentVersion : Option (Option String)
  humanitarianAttr : Option String
  defaultCurrency : Option String
  defaultLang : Option String
  budgetNotProvidedAttr : Option Int
  iatiIdentifierElem : Option (Option String)
  reportingOrgs : List ReportingOrgElem
  otherIdentifierB1Refs : List (Option String)
  participatingOrgs : List ParticipatingOrgElem
  titles : List TextElem
  descriptions : List TextElem
  activityStatuses : List (Option String)
  activityDates : List ActivityDateElem
  sectors : List SectorElem
  recipientCountries : List RecipientCountryElem
  recipientRegions : List RecipientRegionElem
  transactions : List TransactionElem
  budgets : List BudgetElem
  hasContactInfoEmail : Bool
  locations : List LocationElem
  capitalSpendPercentages : List String
  documentLinks : List DocumentLinkElem
  activityWebsiteValidUrlXSD : List Bool
  conditionsAttachedAttrs : List String
  hasResultIndicator : Bool
  defaultAidTypeCodes : List String
  humanitarianScopeTypes : List String
  humanitarianScopeCodes : List String
  humanitarianScopeVocabs : List String
deriving DecidableEq

/-- The codelists of one major version (`CODELISTS[major_version]`), loaded
from static JSON files at import time (external reference data). -/
structure Codelists where
  versionCodes : List String
  activityStatus : List String
  currency : List String
  sector : List String
  sectorCategory : List String
  documentCategory : List String
  aidType : List String
  budgetNotProvided : List String

/-- External reference tables: codelists per major version and the
country → language mapping (`country_lang_map`, absent entries giving `[]`
as the `KeyError` handler does). -/
structure RefTables where
  codelists1 : Codelists
  codelists2 : Codelists
  countryLangs : String → List String

/-- String prefix test (Python `str.startswith`). -/
def strStartsWith (s pre : String) : Bool :=
  pre.toList.isPrefixOf s.toList

/-- `CODELISTS[self._major_version()]`. -/
def codelistsFor (rt : RefTables) (major : String) : Codelists :=
  if major = "1" then rt.codelists1 else rt.codelists2

/-! ## Version helpers (`CommonSharedElements` / `ActivityStats`) -/

/-- `_version`: the parent element's `@version` when it is a non-empty value
of the version 2 `Version` codelist, else the fixed legacy `"1.01"`. -/
def _version (rt : RefTables) (a : Activity) : String :=
  match a.parentVersion with
  | none => "1.01"
  | some attr =>
    match attr with
    | some v => if v ≠ "" ∧ v ∈ rt.codelists2.versionCodes then v else "1.01"
    | none => "1.01"

/-- `_major_version`: `"2"` when `_version` starts with `"2."`, else `"1"`. -/
def _major_version (rt : RefTables) (a : Activity) : String :=
  if strStartsWith (_version rt a) "2." then "2" else "1"

/-- `_planned_start_code`. -/
def _planned_start_code (rt : RefTables) (a : Activity) : String :=
  if _major_version rt a = "1" then "start-planned" else "1"

/-- `_actual_start_code`. -/
def _actual_start_code (rt : RefTables) (a : Activity) : String :=
  if _major_version rt a = "1" then "start-actual" else "2"

/-- `_planned_end_code`. -/
def _planned_end_code (rt : RefTables) (a : Activity) : String :=
  if _major_version rt a = "1" then "end-planned" else "3"

/-- `_actual_end_code`. -/
def _actual_end_code (rt : RefTables) (a : Activity) : String :=
  if _major_version rt a = "1" then "end-actual" else "4"

/-- `_incoming_funds_code`. -/
def _incoming_funds_code (rt : RefTables) (a : Activity) : String :=
  if _major_version rt a = "1" then "IF" else "1"

/-- `_commitment_code`. -/
def _commitment_code (rt : RefTables) (a : Activity) : String :=
  if _major_version rt a = "1" then "C" else "2"

/-- `_disbursement_code`. -/
def _disbursement_code (rt : RefTables) (a : Activity) : String :=
  if _major_version rt a = "1" then "D" else "3"

/-- `_expenditure_code`. -/
def _expenditure_code (rt : RefTables) (a : Activity) : String :=
  if _major_version rt a = "1" then "E" else "4"

/-- `_dac_5_code`. -/
def _dac_5_code (rt : RefTables) (a : Activity) : String :=
  if _major_version rt a = "1" then "DAC" else "1"

/-- `_dac_3_code`. -/
def _dac_3_code (rt : RefTables) (a : Activity) : String :=
  if _major_version rt a = "1" then "DAC-3" else "2"

/-- `_funding_code`. -/
def _funding_code (rt : RefTables) (a : Activity) : String :=
  if _major_version rt a = "1" then "Funding" else "1"

/-- `_OrganisationRole_Extending_code`. -/
def _OrganisationRole_Extending_code (rt : RefTables) (a : Activity) : String :=
  if _major_version rt a = "1" then "Extending" else "3"

/-- `_OrganisationRole_Implementing_code`. -/
def _OrganisationRole_Implementing_code (rt : RefTables) (a : Activity) : String :=
  if _major_version rt a = "1" then "Implementing" else "4"

/-- `all_true_and_not_empty`: all elements truthy and the list non-empty. -/
def all_true_and_not_empty (l : List Bool) : Bool :=
  l.all id && !l.isEmpty

/-- Truthiness of a Python string. -/
def strTruthy (s : String) : Bool :=
  s ≠ ""

/-- `iati_identifier` (`CommonSharedElements`): the identifier element's
text, `None` when the element or its text is absent. -/
def iati_identifier (a : Activity) : Option String :=
  a.iatiIdentifierElem.bind id

/-! ## Humanitarian classification (`ActivityStats.humanitarian`) -/

/-- `humanitarian` (`stats/analytics.py` lines 1297–1351): explicit
`@humanitarian` flags (honoured at versions 2.02/2.03), humanitarian DAC
sector codes at activity or transaction level (the latter only at major
version 2), and the record-level "not humanitarian" veto applied last. -/
def humanitarian (rt : RefTables) (a : Activity) : List (String × Nat) :=
  let humanitarian_sectors_dac_5_digit :=
    ["72010", "72011", "72012", "72040", "72050", "73010", "74010", "74020"]
  let humanitarian_sectors_dac_3_digit := ["720", "730", "740"]
  let is_humanitarian_by_attrib_activity : Bool :=
    a.humanitarianAttr = some "1" || a.humanitarianAttr = some "true"
  let is_not_humanitarian_by_attrib_activity : Bool :=
    a.humanitarianAttr = some "0" || a.humanitarianAttr = some "false"
  let is_humanitarian_by_attrib_transaction : Bool :=
    (a.transactions.filterMap (fun t => t.humanitarianAttr)).any
      (fun h => h = "1" || h = "true")
  let ver := _version rt a
  let verOk : Bool := ver = "2.02" || ver = "2.03"
  let is_humanitarian_by_attrib : Bool :=
    verOk && (is_humanitarian_by_attrib_activity ||
      (is_humanitarian_by_attrib_transaction && !is_not_humanitarian_by_attrib_activity))
  let dac5 := _dac_5_code rt a
  let dac3 := _dac_3_code rt a
  let is_humanitarian_by_sector_5_digit_activity : Bool :=
    ((a.sectors.filter (fun s => s.vocabulary = some dac5 || s.vocabulary = none)).filterMap
      (fun s => s.code)).any (fun c => c ∈ humanitarian_sectors_dac_5_digit)
  let transNotVetoed := a.transactions.filter
    (fun t => !(t.humanitarianAttr = some "0" || t.humanitarianAttr = some "false"))
  let is_humanitarian_by_sector_5_digit_transaction : Bool :=
    (transNotVetoed.flatMap (fun t =>
      (t.sectors.filter (fun s => s.vocabulary = some dac5 || s.vocabulary = none)).filterMap
        (fun s => s.code))).any (fun c => c ∈ humanitarian_sectors_dac_5_digit)
  let is_humanitarian_by_sector_3_digit_activity : Bool :=
    ((a.sectors.filter (fun s => s.vocabulary = some dac3)).filterMap (fun s => s.code)).any
      (fun c => c ∈ humanitarian_sectors_dac_3_digit)
  let is_humanitarian_by_sector_3_digit_transaction : Bool :=
    (transNotVetoed.flatMap (fun t =>
      (t.sectors.filter (fun s => s.vocabulary = some dac3)).filterMap
        (fun s => s.code))).any (fun c => c ∈ humanitarian_sectors_dac_3_digit)
  let is_humanitarian_by_sector_activity : Bool :=
    is_humanitarian_by_sector_5_digit_activity || is_humanitarian_by_sector_3_digit_activity
  let is_humanitarian_by_sector_transaction : Bool :=
    is_humanitarian_by_sector_5_digit_transaction || is_humanitarian_by_sector_3_digit_transaction
  let is_humanitarian_by_sector : Bool :=
    is_humanitarian_by_sector_activity ||
      (is_humanitarian_by_sector_transaction && _major_version rt a = "2")
  let combined : Nat := if is_humanitarian_by_attrib || is_humanitarian_by_sector then 1 else 0
  let is_humanitarian : Nat := if is_not_humanitarian_by_attrib_activity then 0 else combined
  let scopeOk : Bool :=
    all_true_and_not_empty (a.humanitarianScopeTypes.map strTruthy) &&
      all_true_and_not_empty (a.humanitarianScopeCodes.map strTruthy)
  let sectorVocab10 : Bool := a.sectors.any (fun s => s.vocabulary = some "10")
  let scopeVocabPresent : Bool := !a.humanitarianScopeVocabs.isEmpty
  let glide : Bool := a.humanitarianScopeVocabs.any (fun v => v = "1-2")
  let hrp : Bool := a.humanitarianScopeVocabs.any (fun v => v = "2-1")
  [("is_humanitarian", is_humanitarian),
   ("is_humanitarian_by_attrib", if is_humanitarian_by_attrib then 1 else 0),
   ("contains_humanitarian_scope",
     if is_humanitarian ≠ 0 && verOk && scopeOk then 1 else 0),
   ("contains_humanitarian_scope_without_humanitarian",
     if is_humanitarian = 0 && verOk && scopeOk then 1 else 0),
   ("uses_humanitarian_clusters_vocab",
     if is_humanitarian ≠ 0 && verOk && sectorVocab10 then 1 else 0),
   ("uses_humanitarian_clusters_vocab_without_humanitarian",
     if is_humanitarian = 0 && verOk && sectorVocab10 then 1 else 0),
   ("uses_humanitarian_glide_codes",
     if is_humanitarian ≠ 0 && verOk && scopeVocabPresent && glide then 1 else 0),
   ("uses_humanitarian_glide_codes_without_humanitarian",
     if is_humanitarian = 0 && verOk && scopeVocabPresent && glide then 1 else 0),
   ("uses_humanitarian_hrp_codes",
     if is_humanitarian ≠ 0 && verOk && scopeVocabPresent && hrp then 1 else 0),
   ("uses_humanitarian_hrp_codes_without_humanitarian",
     if is_humanitarian = 0 && verOk && scopeVocabPresent && hrp then 1 else 0)]

/-! ## Association-list update (Python `dict` / `defaultdict` writes) -/

/-- Update the entry for key `k` in an insertion-ordered association list,
starting from `dflt` when absent (a `defaultdict` access-and-assign). -/
def updateAL {K V : Type} [DecidableEq K] (k : K) (dflt : V) (f : V → V) :
    List (K × V) → List (K × V)
  | [] => [(k, f dflt)]
  | (k1, v1) :: rest =>
    if k1 = k then (k1, f v1) :: rest else (k1, v1) :: updateAL k dflt f rest

/-- `collections.Counter` over a list of strings. -/
def counterAL (l : List String) : List (String × Nat) :=
  l.foldl (fun acc s => updateAL s 0 (fun n => n + 1) acc) []

/-- Remove a key from an association list (Python `del d[k]`). -/
def eraseKeyAL {K V : Type} [DecidableEq K] (k : K) (l : List (K × V)) : List (K × V) :=
  l.filter (fun p => p.1 ≠ k)

/-- `provider_activity_id` (`stats/analytics.py` lines 1493–1498): count the
`transaction/provider-org/@provider-activity-id` values, then delete the
record's own `iati-identifier` from the counter when present. -/
def provider_activity_id (a : Activity) : List (String × Nat) :=
  let out := counterAL (a.transactions.filterMap
    (fun t => t.providerOrg.bind (fun p => p.providerActivityId)))
  match iati_identifier a with
  | some ident => if (out.lookup ident).isSome then eraseKeyAL ident out else out
  | none => out

/-! ## Comprehensiveness engine (`ActivityStats`, lines 1001–1295) -/

/-- The parsed planned end dates
(`activity-date[@type=planned-end]` through `iso_date`). -/
def plannedEndDates (rt : RefTables) (a : Activity) : List PyDate :=
  (a.activityDates.filter
    (fun d => d.typeAttr = some (_planned_end_code rt a))).filterMap (fun d => d.isoDate)

/-- The parsed actual end dates. -/
def actualEndDates (rt : RefTables) (a : Activity) : List PyDate :=
  (a.activityDates.filter
    (fun d => d.typeAttr = some (_actual_end_code rt a))).filterMap (fun d => d.isoDate)

/-- `_comprehensiveness_is_current`: current when (1) there is no parsed
planned end date and the first `activity-status/@code` is `2` or `4`, or
(2) some actual end date lies within the trailing year, or (3) some planned
end date is today or later. -/
def _comprehensiveness_is_current (rt : RefTables) (today : PyDate) (a : Activity) : Bool :=
  let activity_status_code := a.activityStatuses.filterMap id
  let planned := plannedEndDates rt a
  let actual := actualEndDates rt a
  (planned.isEmpty && !activity_status_code.isEmpty &&
    (activity_status_code.head? = some "2" || activity_status_code.head? = some "4")) ||
  actual.any (fun d => dateLe (add_years today (-1)) d && dateLe d today) ||
  planned.any (fun d => dateLe today d)

/-- `is_text_in_element` (inside `_comprehensiveness_bools`): narrative text
at major version 2, direct text at major version 1. -/
def isTextIn (rt : RefTables) (a : Activity) (direct narrative : Bool) : Bool :=
  if _major_version rt a = "2" then narrative
  else if _major_version rt a = "1" then direct
  else false

/-- `_is_donor_publisher`: the first `reporting-org/@ref` appears among the
funding/extending participating-org refs and not among the implementing ones. -/
def _is_donor_publisher (rt : RefTables) (a : Activity) : Bool :=
  match (a.reportingOrgs.filterMap (fun o => o.ref)).head? with
  | none => false
  | some r =>
    let fundingExtending := (a.participatingOrgs.filter
      (fun p => p.role = some (_funding_code rt a) ||
        p.role = some (_OrganisationRole_Extending_code rt a))).filterMap (fun p => p.ref)
    let implementing := (a.participatingOrgs.filter
      (fun p => p.role = some (_OrganisationRole_Implementing_code rt a))).filterMap
        (fun p => p.ref)
    r ∈ fundingExtending && r ∉ implementing

/-- `get_language`: languages of one title/description element — narrative
languages (with activity default fallback) at major version 2, the element's
own language (with default fallback) otherwise; de-duplicated. -/
def get_language (major : String) (defaultLang : Option String) (td : TextElem) :
    List String :=
  let langs :=
    if major = "2" then
      td.narratives.flatMap (fun n =>
        match n.lang with
        | some l => [l]
        | none => match defaultLang with
          | some d => [d]
          | none => [])
    else
      match td.lang with
      | some l => [l]
      | none => match defaultLang with
        | some d => [d]
        | none => []
  langs.dedup

/-- `_is_recipient_language_used`: with exactly one recipient country, do
both the titles and the descriptions use one of that country's languages? -/
def _is_recipient_language_used (rt : RefTables) (a : Activity) : Nat :=
  if a.recipientCountries.length = 1 then
    let country_langs :=
      match (a.recipientCountries.filterMap (fun c => c.code)).head? with
      | none => []
      | some code => rt.countryLangs code
    let major := _major_version rt a
    let langs_in_title := a.titles.flatMap (get_language major a.defaultLang)
    let langs_in_description := a.descriptions.flatMap (get_language major a.defaultLang)
    if langs_in_title.any (fun l => l ∈ country_langs) &&
        langs_in_description.any (fun l => l ∈ country_langs) then 1 else 0
  else 0

/-- `_is_sector_dac`: DAC sectors at activity level, or (at major version 2)
on every transaction of a non-empty transaction list. -/
def _is_sector_dac (rt : RefTables) (a : Activity) : Bool :=
  let dac5 := _dac_5_code rt a
  let dac3 := _dac_3_code rt a
  let isDacSector := fun (s : SectorElem) =>
    s.vocabulary = some dac5 || s.vocabulary = some dac3 || s.vocabulary = none
  let sector_dac_activity_level := !(a.sectors.filter isDacSector).isEmpty
  let all_transactions_have_dac_sector_codes :=
    if _major_version rt a ≠ "1" then
      all_true_and_not_empty (a.transactions.map
        (fun t => !(t.sectors.filter isDacSector).isEmpty))
    else false
  sector_dac_activity_level || all_transactions_have_dac_sector_codes

/-- Transactions whose `transaction-type/@code` is one of the given codes:
`transaction[transaction-type/@code="…" or …]`. -/
def transactionsOfTypes (a : Activity) (codes : List String) : List TransactionElem :=
  a.transactions.filter (fun t =>
    match t.tType with
    | some (some c) => c ∈ codes
    | _ => false)

/-- The commitment transactions (codes `_commitment_code` and `"11"`). -/
def commitmentTransactions (rt : RefTables) (a : Activity) : List TransactionElem :=
  transactionsOfTypes a [_commitment_code rt a, "11"]

/-- The spend transactions (disbursements and expenditures). -/
def spendTransactions (rt : RefTables) (a : Activity) : List TransactionElem :=
  transactionsOfTypes a [_disbursement_code rt a, _expenditure_code rt a]

/-- The traceability-relevant transactions (codes incoming-funds, `"11"`,
`"13"`). -/
def traceabilityTransactions (rt : RefTables) (a : Activity) : List TransactionElem :=
  transactionsOfTypes a [_incoming_funds_code rt a, "11", "13"]

/-- The `location/point/pos` elements (with their text). -/
def locationPointPos (a : Activity) : List (Option String) :=
  a.locations.filterMap (fun l => l.pointPos)

/-- `_comprehensiveness_bools`: the presence test of each comprehensiveness
criterion, as the truthiness of the corresponding dictionary value. -/
def _comprehensiveness_bools (rt : RefTables) (a : Activity) : List (String × Bool) :=
  let major := _major_version rt a
  [("version",
    match a.parentVersion with
    | some (some _) => true
    | _ => false),
   ("reporting-org",
    !(a.reportingOrgs.filterMap (fun o => o.ref)).isEmpty &&
      isTextIn rt a (a.reportingOrgs.any (fun o => o.hasDirectText))
        (a.reportingOrgs.any (fun o => o.hasNarrativeText))),
   ("iati-identifier",
    match a.iatiIdentifierElem with
    | some (some _) => true
    | _ => false),
   ("participating-org", !a.participatingOrgs.isEmpty),
   ("title",
    isTextIn rt a (a.titles.any (fun t => t.hasDirectText))
      (a.titles.any (fun t => t.hasNarrativeText))),
   ("description",
    isTextIn rt a (a.descriptions.any (fun t => t.hasDirectText))
      (a.descriptions.any (fun t => t.hasNarrativeText))),
   ("activity-status", !a.activityStatuses.isEmpty),
   ("activity-date", !a.activityDates.isEmpty),
   ("sector",
    !a.sectors.isEmpty || (major ≠ "1" &&
      all_true_and_not_empty (a.transactions.map (fun t => !t.sectors.isEmpty)))),
   ("country_or_region",
    !a.recipientCountries.isEmpty || !a.recipientRegions.isEmpty || (major ≠ "1" &&
      all_true_and_not_empty (a.transactions.map
        (fun t => t.hasRecipientCountry || t.hasRecipientRegion)))),
   ("transaction_commitment", !(commitmentTransactions rt a).isEmpty),
   ("transaction_spend", !(spendTransactions rt a).isEmpty),
   ("transaction_currency",
    all_true_and_not_empty (a.transactions.map (fun t =>
      t.values.any (fun v => v.valueDate.isSome) &&
        (a.defaultCurrency.isSome || t.values.any (fun v => v.currency.isSome))))),
   ("transaction_traceability",
    all_true_and_not_empty ((traceabilityTransactions rt a).map (fun t =>
      match t.providerOrg with
      | some p => p.providerActivityId.isSome
      | none => false)) || _is_donor_publisher rt a),
   ("budget", !a.budgets.isEmpty),
   ("budget_not_provided", a.budgetNotProvidedAttr.isSome),
   ("contact-info", a.hasContactInfoEmail),
   ("location",
    a.locations.any (fun l =>
      l.pointPos.isSome || l.hasName || l.hasDescription || l.hasAdministrative)),
   ("location_point_pos", !(locationPointPos a).isEmpty),
   ("sector_dac", _is_sector_dac rt a),
   ("capital-spend", !a.capitalSpendPercentages.isEmpty),
   ("document-link", !a.documentLinks.isEmpty),
   ("activity-website",
    if major = "1" then !a.activityWebsiteValidUrlXSD.isEmpty
    else !(a.documentLinks.filter
      (fun d => d.categoryCodes.any (fun c => c = some "A12"))).isEmpty),
   ("recipient_language", _is_recipient_language_used rt a ≠ 0),
   ("conditions_attached", !a.conditionsAttachedAttrs.isEmpty),
   ("result_indicator", a.hasResultIndicator),
   ("aid_type",
    all_true_and_not_empty (a.defaultAidTypeCodes.map strTruthy) ||
      all_true_and_not_empty (a.transactions.map (fun t => !t.aidTypeCodes.isEmpty)))]

/-- `decimal_or_zero`: a missing percentage attribute (`None`) counts as 0. -/
def decimal_or_zero (p : Option ℚ) : ℚ :=
  p.getD 0

/-- `empty_or_percentage_sum_is_100('sector', by_vocab=True)`: within each
vocabulary group, a single entry or percentages summing to exactly 100. -/
def sectorPercentageSumOk (a : Activity) : Bool :=
  if a.sectors.isEmpty then true
  else
    ((a.sectors.map (fun s => s.vocabulary)).dedup).all (fun v =>
      let es := a.sectors.filter (fun s => s.vocabulary = v)
      es.length = 1 || (es.map (fun s => decimal_or_zero s.percentage)).sum = 100)

/-- `empty_or_percentage_sum_is_100('recipient-country|recipient-region')`. -/
def countryRegionPercentageSumOk (a : Activity) : Bool :=
  let ps := a.recipientCountries.map (fun c => c.percentage) ++
    a.recipientRegions.map (fun r => r.percentage)
  if ps.isEmpty then true
  else ps.length = 1 || (ps.map decimal_or_zero).sum = 100

/-- The per-key update that `_comprehensiveness_with_validation_bools`
applies on top of `_comprehensiveness_bools` (keys it does not update keep
their presence value). -/
def validationUpdate (rt : RefTables) (a : Activity) (k : String) (base : Bool) : Bool :=
  let major := _major_version rt a
  let cl := codelistsFor rt major
  match k with
  | "version" =>
    base && (match a.parentVersion with
      | some (some v) => v ∈ cl.versionCodes
      | _ => false)
  | "iati-identifier" =>
    base && (match a.iatiIdentifierElem with
      | some (some t) =>
        if major ≠ "1" then
          ((match (a.reportingOrgs.head?).bind (fun o => o.ref) with
            | some r => strTruthy r && strStartsWith t r
            | none => false) ||
           (a.otherIdentifierB1Refs.filterMap id).any (fun r => strStartsWith t r))
        else true
      | _ => false)
  | "participating-org" =>
    base && _funding_code rt a ∈ a.participatingOrgs.filterMap (fun p => p.role)
  | "activity-status" =>
    base && all_true_and_not_empty ((a.activityStatuses.filterMap id).map
      (fun c => c ∈ cl.activityStatus))
  | "activity-date" =>
    base &&
      !(a.activityDates.filter (fun d =>
        d.typeAttr = some (_planned_start_code rt a) ||
          d.typeAttr = some (_actual_start_code rt a))).isEmpty &&
      all_true_and_not_empty (a.activityDates.map (fun d => d.validXSD))
  | "sector" => base && sectorPercentageSumOk a
  | "country_or_region" => base && countryRegionPercentageSumOk a
  | "transaction_commitment" =>
    base &&
      (commitmentTransactions rt a).all (fun t =>
        match t.values.head? with
        | some v => v.validValueXSD
        | none => false) &&
      all_true_and_not_empty ((commitmentTransactions rt a).map (fun t =>
        t.transactionDateValidXSD.any id || t.values.any (fun v => v.validDateXSD)))
  | "transaction_spend" =>
    base &&
      (spendTransactions rt a).all (fun t =>
        match t.values.head? with
        | some v => v.validValueXSD
        | none => false) &&
      all_true_and_not_empty ((spendTransactions rt a).map (fun t =>
        t.transactionDateValidXSD.any id || t.values.any (fun v => v.validDateXSD)))
  | "transaction_currency" =>
    a.transactions.all (fun t =>
      t.values.all (fun v => v.validDateXSD) &&
        ((match a.defaultCurrency with
          | some c => [c]
          | none => []) ++ t.values.filterMap (fun v => v.currency)).all
          (fun c => c ∈ cl.currency))
  | "budget" =>
    base && a.budgets.all (fun b =>
      b.periodStartValidXSD && b.periodEndValidXSD &&
        (match b.value with
         | some v => v.validDateXSD && v.validValueXSD
         | none => false))
  | "budget_not_provided" =>
    base && (match a.budgetNotProvidedAttr with
      | some n => toString n ∈ cl.budgetNotProvided
      | none => false)
  | "location_point_pos" =>
    all_true_and_not_empty ((locationPointPos a).map valid_coords_text)
  | "sector_dac" =>
    base &&
      (a.sectors.filter (fun s =>
        s.vocabulary = some (_dac_5_code rt a) || s.vocabulary = none)).all (fun s =>
          match s.code with
          | some c => c ∈ cl.sector
          | none => false) &&
      (a.sectors.filter (fun s => s.vocabulary = some (_dac_3_code rt a))).all (fun s =>
        match s.code with
        | some c => c ∈ cl.sectorCategory
        | none => false)
  | "document-link" =>
    all_true_and_not_empty (a.documentLinks.map (fun d =>
      d.validUrlXSD && (match d.categoryCodes.head? with
        | some (some c) => c ∈ cl.documentCategory
        | _ => false)))
  | "activity-website" =>
    all_true_and_not_empty
      (if major = "1" then a.activityWebsiteValidUrlXSD
       else (a.documentLinks.filter (fun d =>
         d.categoryCodes.any (fun c => c = some "A12"))).map (fun d => d.validUrlXSD))
  | "aid_type" =>
    base &&
      (all_true_and_not_empty (a.defaultAidTypeCodes.map (fun c => c ∈ cl.aidType)) ||
       all_true_and_not_empty (a.transactions.map (fun t =>
         t.aidTypeCodes.any (fun c => c ∈ cl.aidType))))
  | _ => base

/-- `_comprehensiveness_with_validation_bools`: the presence bools with the
validity updates applied (`bools.update({...})` preserves key order). -/
def _comprehensiveness_with_validation_bools (rt : RefTables) (a : Activity) :
    List (String × Bool) :=
  (_comprehensiveness_bools rt a).map (fun kv => (kv.1, validationUpdate rt a kv.1 kv.2))

/-- The start date used by the `transaction_spend` denominator override:
the `iso_date` of the first actual-start element, else of the first
planned-start element. -/
def comprehensivenessStartDate (rt : RefTables) (a : Activity) : Option PyDate :=
  let dates := a.activityDates.filter (fun d => d.typeAttr = some (_actual_start_code rt a))
    ++ a.activityDates.filter (fun d => d.typeAttr = some (_planned_start_code rt a))
  match dates.head? with
  | some d => d.isoDate
  | none => none

/-- `comprehensiveness_denominators`: denominator overrides for the three
restricted criteria; all three are 0 for a non-current record. -/
def comprehensiveness_denominators (rt : RefTables) (today : PyDate) (a : Activity) :
    List (String × Nat) :=
  if _comprehensiveness_is_current rt today a then
    let start_date := comprehensivenessStartDate rt a
    [("recipient_language", if a.recipientCountries.length = 1 then 1 else 0),
     ("transaction_spend",
      match start_date with
      | some sd => if dateLt sd today && dateDiff today sd > 365 then 1 else 0
      | none => 0),
     ("transaction_traceability",
      if !(traceabilityTransactions rt a).isEmpty || _is_donor_publisher rt a then 1 else 0)]
  else
    [("recipient_language", 0), ("transaction_spend", 0), ("transaction_traceability", 0)]

/-- The numerator entry for one criterion: 1 when the bool holds and the
key either has no denominator override or a non-zero one. -/
def comprehensivenessScore (denoms : List (String × Nat)) (bools : List (String × Bool)) :
    List (String × Nat) :=
  bools.map (fun kv =>
    (kv.1, if kv.2 && (match denoms.lookup kv.1 with
      | none => true
      | some d => d ≠ 0) then 1 else 0))

/-- `comprehensiveness`: numerator contributions for a current record,
empty for a non-current one. -/
def comprehensiveness (rt : RefTables) (today : PyDate) (a : Activity) :
    List (String × Nat) :=
  if _comprehensiveness_is_current rt today a then
    comprehensivenessScore (comprehensiveness_denominators rt today a)
      (_comprehensiveness_bools rt a)
  else []

/-- `comprehensiveness_with_validation`. -/
def comprehensiveness_with_validation (rt : RefTables) (today : PyDate) (a : Activity) :
    List (String × Nat) :=
  if _comprehensiveness_is_current rt today a then
    comprehensivenessScore (comprehensiveness_denominators rt today a)
      (_comprehensiveness_with_validation_bools rt a)
  else []

/-- `comprehensiveness_denominator_default`: 1 for a current record, else 0. -/
def comprehensiveness_denominator_default (rt : RefTables) (today : PyDate)
    (a : Activity) : Nat :=
  if _comprehensiveness_is_current rt today a then 1 else 0

/-! ## Financial roll-ups (`ActivityStats`, lines 1353–1465)

The nested `defaultdict`s keyed by transaction type, currency and year
become insertion-ordered association lists, written through `updateAL`. -/

/-- The innermost map: year → Decimal sum. -/
abbrev YearMap := List (Int × ℚ)

/-- currency → year → sum (currency may be `None`). -/
abbrev CurrencyMap := List (Option String × YearMap)

/-- transaction type → currency → year → sum. -/
abbrev TypeMap := List (Option String × CurrencyMap)

/-- `out[t][c][y] += v` on the nested `defaultdict`. -/
def upd3 (t c : Option String) (y : Int) (v : ℚ) (out : TypeMap) : TypeMap :=
  updateAL t [] (fun m2 =>
    updateAL c [] (fun m1 =>
      updateAL y 0 (fun q => q + v) m1) m2) out

/-- `out[t]['USD'][y]` read with `defaultdict` semantics (0 when absent). -/
def getD3 (m : TypeMap) (t c : Option String) (y : Int) : ℚ :=
  ((((m.lookup t).getD []).lookup c).getD []).lookup y |>.getD 0

/-- `get_currency`: the first `value/@currency`, else the activity's
`@default-currency`. -/
def get_currency (a : Activity) (values : List ValueElem) : Option String :=
  match (values.filterMap (fun v => v.currency)).head? with
  | some c => some c
  | none => a.defaultCurrency

/-- The four transaction-type codes that `_sum_transactions_by_type_by_year`
accepts. -/
def sumTransactionCodes (rt : RefTables) (a : Activity) : List String :=
  [_incoming_funds_code rt a, _commitment_code rt a,
   _disbursement_code rt a, _expenditure_code rt a]

/-- `_sum_transactions_by_type_by_year`: bucket the value of each
incoming-funds / commitment / disbursement / expenditure transaction with a
truthy year by (type code, currency, year), summing as `Decimal`s; a missing
or unparsable value text counts as 0. -/
def _sum_transactions_by_type_by_year (rt : RefTables) (a : Activity) : TypeMap :=
  a.transactions.foldl (fun out t =>
    match t.tType with
    | some (some c) =>
      if c ∈ sumTransactionCodes rt a then
        let transaction_value : ℚ :=
          match t.values.head? with
          | none => 0
          | some v => v.amount.getD 0
        match t.transDate with
        | some d =>
          if d.year ≠ 0 then
            upd3 (some c) (get_currency a t.values) d.year transaction_value out
          else out
        | none => out
      else out
    | _ => out) []

/-- Iterate a nested `for type: for currency: for year:` over a `TypeMap`
in insertion order. -/
def flatten3 (m : TypeMap) : List (Option String × Option String × Int × ℚ) :=
  m.flatMap (fun te => te.2.flatMap (fun ce => ce.2.map (fun ye => (te.1, ce.1, ye.1, ye.2))))

/-- The year clamp of `sum_transactions_by_type_by_year_usd` (lines
1425–1426): years after 2014 use 2014, both as bucket key and as the
conversion year. -/
def clampYear (y : Int) : Int :=
  if y > 2014 then 2014 else y

/-- `sum_transactions_by_type_by_year_usd`: convert each bucket of
`_sum_transactions_by_type_by_year` with a non-`None` currency to USD at the
clamped year and accumulate under `[type]['USD'][clamped year]`. -/
def sum_transactions_by_type_by_year_usd (rt : RefTables) (table : RateTable)
    (a : Activity) : TypeMap :=
  (flatten3 (_sum_transactions_by_type_by_year rt a)).foldl (fun out e =>
    match e with
    | (t, copt, y, v) =>
      let year := clampYear y
      match copt with
      | some currency => upd3 t (some "USD") year (get_USD_value table currency v year) out
      | none => out) []

/-- `sum_budgets_by_type_by_year`: bucket each budget with a truthy
`budget_year` by (`@type`, currency, year), summing as `Decimal`s. -/
def sum_budgets_by_type_by_year (a : Activity) : TypeMap :=
  a.budgets.foldl (fun out b =>
    let budget_value : ℚ :=
      match b.value with
      | none => 0
      | some v => v.amount.getD 0
    match b.budgetYear with
    | some y =>
      if y ≠ 0 then
        upd3 b.typeAttr (get_currency a b.value.toList) y budget_value out
      else out
    | none => out) []

/-- `sum_budgets_by_type_by_year_usd`: as the transaction variant but with
no year clamp — the conversion year is the bucket year itself. -/
def sum_budgets_by_type_by_year_usd (table : RateTable) (a : Activity) : TypeMap :=
  (flatten3 (sum_budgets_by_type_by_year a)).foldl (fun out e =>
    match e with
    | (t, copt, y, v) =>
      match copt with
      | some currency => upd3 t (some "USD") y (get_USD_value table currency v y) out
      | none => out) []

/-- The bucket contribution of one transaction, when it makes one:
(type, currency, year) key and the `Decimal` value added there. -/
def transContribution (rt : RefTables) (a : Activity) (t : TransactionElem) :
    Option ((Option String × Option String × Int) × ℚ) :=
  match t.tType with
  | some (some c) =>
    if c ∈ sumTransactionCodes rt a then
      match t.transDate with
      | some d =>
        if d.year ≠ 0 then
          some ((some c, get_currency a t.values, d.year),
            match t.values.head? with
            | none => 0
            | some v => v.amount.getD 0)
        else none
      | none => none
    else none
  | _ => none

/-- A (type, currency, year) bucket key. -/
abbrev Key3 := Option String × Option String × Int

/-- The total of the contributions that fall in one bucket. -/
def contribTotal (l : List (Key3 × ℚ)) (k : Key3) : ℚ :=
  ((l.filter (fun e => e.1 = k)).map (fun e => e.2)).sum

/-- What one iterated entry of `_sum_transactions_by_type_by_year` adds to
the USD map: skipped when the currency is `None`, otherwise converted at
the clamped year and keyed by it. -/
def usdTransContribution (table : RateTable)
    (e : Option String × Option String × Int × ℚ) : Option (Key3 × ℚ) :=
  match e with
  | (t, some currency, y, v) =>
    some ((t, some "USD", clampYear y), get_USD_value table currency v (clampYear y))
  | _ => none

/-- What one iterated entry of `sum_budgets_by_type_by_year` adds to the
USD map: converted at the entry's own year, with no clamp. -/
def usdBudgetContribution (table : RateTable)
    (e : Option String × Option String × Int × ℚ) : Option (Key3 × ℚ) :=
  match e with
  | (t, some currency, y, v) => some ((t, some "USD", y), get_USD_value table currency v y)
  | _ => none

/-- The bucket contribution of one budget, when it makes one. -/
def budgetContribution (a : Activity) (b : BudgetElem) :
    Option ((Option String × Option String × Int) × ℚ) :=
  match b.budgetYear with
  | some y =>
    if y ≠ 0 then
      some ((b.typeAttr, get_currency a b.value.toList, y),
        match b.value with
        | none => 0
        | some v => v.amount.getD 0)
    else none
  | none => none

/-! ## Shape merge and hierarchical aggregation

Modelled from the spec: the aggregation engine itself (`calculate_stats.py`
and the decorator/merge framework of `stats.common`) is not among this
repository's `src` files — only its leaf statistics are — so the merge
contract of §4.1 is modelled from the spec's words: `Number` merges by
arithmetic sum; `Counter1` by union of keys, summing values present in
both; `Counter2`/`Counter3` by recursive application of the `Counter1`
rule; folding an empty sequence gives the shape's identity.  Mappings are
represented canonically as key-sorted association lists. -/

/-- Modelled from the spec: union of keys, summing (with `op`) the values of
keys present in both, on key-sorted association lists. -/
def mergeWith {V : Type} (op : V → V → V) :
    List (String × V) → List (String × V) → List (String × V)
  | [], ys => ys
  | x :: xs, [] => x :: xs
  | (k1, v1) :: xs, (k2, v2) :: ys =>
    if k1 < k2 then (k1, v1) :: mergeWith op xs ((k2, v2) :: ys)
    else if k2 < k1 then (k2, v2) :: mergeWith op ((k1, v1) :: xs) ys
    else (k1, op v1 v2) :: mergeWith op xs ys
termination_by xs ys => xs.length + ys.length

/-- Modelled from the spec: the four result shapes — `StatValue 0` is
`Number`, `StatValue 1`/`2`/`3` are `Counter1`/`Counter2`/`Counter3`. -/
def StatValue : Nat → Type
  | 0 => ℚ
  | n + 1 => List (String × StatValue n)

instance instDecEqStatValue : (n : Nat) → DecidableEq (StatValue n)
  | 0 => inferInstanceAs (DecidableEq ℚ)
  | n + 1 =>
    letI := instDecEqStatValue n
    inferInstanceAs (DecidableEq (List (String × StatValue n)))

/-- Modelled from the spec: the merge rule of a shape. -/
def mergeStat : (n : Nat) → StatValue n → StatValue n → StatValue n
  | 0 => fun a b => (show ℚ from a) + (show ℚ from b)
  | n + 1 => fun a b => mergeWith (mergeStat n) a b

/-- Modelled from the spec: the identity value of a shape (0 or the empty
mapping). -/
def emptyStat : (n : Nat) → StatValue n
  | 0 => (0 : ℚ)
  | _ + 1 => []

/-- Lexicographic strict order on strings by code point, matching `<`. -/
def strLtAux : List Char → List Char → Bool
  | [], [] => false
  | [], _ :: _ => true
  | _ :: _, [] => false
  | a :: as, b :: bs =>
    if a.val.toNat < b.val.toNat then true
    else if b.val.toNat < a.val.toNat then false
    else strLtAux as bs

def strLtb (a b : String) : Bool := strLtAux a.toList b.toList

/-- Keys strictly ascending (the canonical-mapping invariant). -/
def keysSorted {V : Type} : List (String × V) → Bool
  | [] => true
  | [_] => true
  | (k1, _) :: (k2, v2) :: rest =>
    strLtb k1 k2 && keysSorted ((k2, v2) :: rest)

/-- Well-formedness of a `StatValue`: sorted keys with well-formed values,
at every nesting level. -/
def statWF : (n : Nat) → StatValue n → Bool
  | 0, _ => true
  | n + 1, l => keysSorted l && l.all (fun p => statWF n p.2)

def svList {n : Nat} (l : StatValue (n + 1)) : List (String × StatValue n) := l

/-- Modelled from the spec: a grouping (tree of pairwise merges) of leaf
results of one shape. -/
inductive MergeTree (n : Nat) where
  | leaf (v : StatValue n)
  | node (l r : MergeTree n)

/-- The leaf sequence of a grouping, left to right. -/
def treeLeaves {n : Nat} : MergeTree n → List (StatValue n)
  | .leaf v => [v]
  | .node l r => treeLeaves l ++ treeLeaves r

/-- Modelled from the spec: evaluate a grouping by pairwise merges. -/
def treeReduce {n : Nat} : MergeTree n → StatValue n
  | .leaf v => v
  | .node l r => mergeStat n (treeReduce l) (treeReduce r)

/-- Modelled from the spec: the sequential left fold
`fold(shape, sequence)`, starting from the shape's identity. -/
def foldStats (n : Nat) (l : List (StatValue n)) : StatValue n :=
  l.foldl (mergeStat n) (emptyStat n)

/-- Combine optional values, applying `op` when both are present (the
effect of `mergeWith` on a single key's lookups). -/
def combineOpt {V : Type} (op : V → V → V) : Option V → Option V → Option V
  | none, b => b
  | some a, none => some a
  | some a, some b => some (op a b)

/-! ## Concrete instances used by closed witnesses -/

/-- Empty codelists. -/
def clEmpty : Codelists :=
  ⟨[], [], [], [], [], [], [], []⟩

/-- Reference tables whose version-2 codelist recognises 2.02. -/
def rtSample : RefTables :=
  ⟨clEmpty, ⟨["2.02"], [], [], [], [], [], [], []⟩, fun _ => []⟩

/-- An activity with every positive humanitarian signal and the
record-level "not humanitarian" veto. -/
def actVetoed : Activity :=
  ⟨some (some "2.02"), some "0", none, none, none, none, [], [], [], [], [], [], [],
   [⟨none, some "72010", none⟩], [], [],
   [⟨some (some "2"), some "1", [⟨none, some "72010", none⟩], false, false, [], none, [],
     none, []⟩],
   [], false, [], [], [], [], [], false, [], ["1"], ["GLIDE-x"], ["1-2"]⟩

/-- A current activity (no planned end date, status code 2) with an actual
start more than a year in the past. -/
def actCurrent : Activity :=
  ⟨some (some "2.02"), none, none, none, none, some (some "XI-IATI-1"), [], [], [], [], [],
   [some "2"],
   [⟨some "2", some ⟨2020, 1, 1⟩, true⟩], [], [], [], [], [], false, [], [], [], [], [],
   false, [], [], [], []⟩

/-- A non-current activity: planned end one day in the past, actual end 13
months in the past, status code 3 (relative to `todaySample`). -/
def actNonCurrent : Activity :=
  ⟨some (some "2.02"), none, none, none, none, none, [], [], [], [], [],
   [some "3"],
   [⟨some "3", some ⟨2026, 10, 11⟩, true⟩, ⟨some "4", some ⟨2025, 9, 12⟩, true⟩],
   [], [], [], [], [], false, [], [], [], [], [], false, [], [], [], []⟩

/-- The date the statistics run, for the witnesses. -/
def todaySample : PyDate :=
  ⟨2026, 10, 12⟩

/-- A tree grouping of three `StatValue 1` leaves, for the C1 witness. -/
def mtSample : MergeTree 1 :=
  MergeTree.node
    (MergeTree.leaf (show StatValue 1 from [("bytes", (7 : ℚ)), ("count", (2 : ℚ))]))
    (MergeTree.node
      (MergeTree.leaf (show StatValue 1 from [("count", (3 : ℚ))]))
      (MergeTree.leaf (show StatValue 1 from [])))

/-- The same leaves as `mtSample`, reordered. -/
def mlSample : List (StatValue 1) :=
  [show StatValue 1 from [("count", (3 : ℚ))],
   show StatValue 1 from [],
   show StatValue 1 from [("bytes", (7 : ℚ)), ("count", (2 : ℚ))]]

/-- An activity whose only location point is the origin `"0 0"`. -/
def actZeroLoc : Activity :=
  ⟨some (some "2.02"), none, none, none, none, none, [], [], [], [], [], [], [], [], [], [],
   [], [], false, [⟨some (some "0 0"), false, false, false⟩], [], [], [], [], false,
   [], [], [], []⟩

/-- An activity whose transactions name two provider activity ids, one of
them the record's own iati-identifier. -/
def actTraceable : Activity :=
  ⟨some (some "2.02"), none, none, none, none, some (some "XI-IATI-1"), [], [], [], [], [],
   [], [], [], [], [],
   [⟨none, none, [], false, false, [], some ⟨none, some "XI-IATI-1"⟩, [], none, []⟩,
    ⟨none, none, [], false, false, [], some ⟨none, some "XX-OTHER"⟩, [], none, []⟩],
   [], false, [], [], [], [], [], false, [], [], [], []⟩

/-! ## Theorems -/

/-- C2: for every amount and every integer year, `get_USD_value` returns
zero — the `KeyError`/`ZeroDivisionError` handlers, not an exception —
whenever the currency is absent from the table, the year is absent for
that currency, or the recorded rate for that currency and year is zero. -/
theorem get_USD_value_fallback_zero (table : RateTable) (c : String) (v : ℚ) (y : Int)
    (h : table.lookup c = none ∨
      (∃ byYear, table.lookup c = some byYear ∧ byYear.lookup y = none) ∨
      lookupRate table c y = some 0) :
    get_USD_value table c v y = 0 := by
  rcases h with h | ⟨m, hm, hy⟩ | h
  · simp [get_USD_value, lookupRate, h]
  · simp [get_USD_value, lookupRate, hm, hy]
  · simp [get_USD_value, h]

/-- Closed witness for C2 at a concrete table: absent currency, absent
year, and zero rate all give 0. -/
theorem get_USD_value_fallback_zero_witness :
    get_USD_value [("EUR", [(2014, 0)])] "USD" 100 2014 = 0 ∧
    get_USD_value [("EUR", [(2014, 0)])] "EUR" 100 2013 = 0 ∧
    get_USD_value [("EUR", [(2014, 0)])] "EUR" 100 2014 = 0 :=
  ⟨get_USD_value_fallback_zero _ _ _ _ (Or.inl (by decide)),
   get_USD_value_fallback_zero _ _ _ _ (Or.inr (Or.inl ⟨[(2014, 0)], by decide, by decide⟩)),
   get_USD_value_fallback_zero _ _ _ _ (Or.inr (Or.inr (by decide)))⟩

/-- C3: a record-level `@humanitarian` of `'0'` or `'false'` forces the
`is_humanitarian` statistic to 0, whatever the other signals are. -/
theorem humanitarian_veto (rt : RefTables) (a : Activity)
    (h : a.humanitarianAttr = some "0" ∨ a.humanitarianAttr = some "false") :
    (humanitarian rt a).lookup "is_humanitarian" = some 0 := by
  rcases h with h | h <;> simp [humanitarian, h]

/-- Closed witness for C3: the vetoed activity carries an explicit
humanitarian flag, a flagged transaction and humanitarian sector codes at
both levels, yet `is_humanitarian` is 0. -/
theorem humanitarian_veto_witness :
    (humanitarian rtSample actVetoed).lookup "is_humanitarian" = some 0 :=
  humanitarian_veto rtSample actVetoed (Or.inl (by decide))

theorem lookup_eraseKeyAL {V : Type} (k : String) (l : List (String × V)) :
    (eraseKeyAL k l).lookup k = none := by
  induction l with
  | nil => rfl
  | cons p rest ih =>
    rcases p with ⟨k1, v1⟩
    unfold eraseKeyAL at ih ⊢
    rw [List.filter_cons]
    by_cases h : k1 = k
    · rw [if_neg (by simp [h])]
      exact ih
    · rw [if_pos (by simp [h])]
      have hbe : (k == k1) = false := beq_eq_false_iff_ne.mpr (fun hh => h hh.symm)
      simp only [List.lookup, hbe]
      exact ih

/-- C10: the `provider_activity_id` counter never keeps the record's own
iati-identifier as a key. -/
theorem provider_activity_id_excludes_self (a : Activity) (ident : String)
    (h : iati_identifier a = some ident) :
    (provider_activity_id a).lookup ident = none := by
  unfold provider_activity_id
  rw [h]
  cases hk : (counterAL (a.transactions.filterMap
      (fun t => t.providerOrg.bind (fun p => p.providerActivityId)))).lookup ident with
  | none => simp [hk]
  | some n => simp [hk, lookup_eraseKeyAL]

theorem comprehensivenessScore_lookup (denoms : List (String × Nat))
    (bools : List (String × Bool)) (k : String) :
    (comprehensivenessScore denoms bools).lookup k =
      (bools.lookup k).map (fun b =>
        if b && (match denoms.lookup k with
          | none => true
          | some d => decide (d ≠ 0)) then 1 else 0) := by
  unfold comprehensivenessScore
  induction bools with
  | nil => rfl
  | cons p rest ih =>
    rcases p with ⟨k1, b1⟩
    by_cases h : k = k1
    · subst h
      simp [List.lookup]
    · have hbe : (k == k1) = false := beq_eq_false_iff_ne.mpr h
      simp only [List.map_cons, List.lookup, hbe]
      exact ih

theorem validationBools_lookup (rt : RefTables) (a : Activity) (k : String) :
    (_comprehensiveness_with_validation_bools rt a).lookup k =
      ((_comprehensiveness_bools rt a).lookup k).map (validationUpdate rt a k) := by
  unfold _comprehensiveness_with_validation_bools
  generalize _comprehensiveness_bools rt a = l
  induction l with
  | nil => rfl
  | cons p rest ih =>
    rcases p with ⟨k1, b1⟩
    by_cases h : k = k1
    · subst h
      simp [List.lookup]
    · have hbe : (k == k1) = false := beq_eq_false_iff_ne.mpr h
      simp only [List.map_cons, List.lookup, hbe]
      exact ih

theorem comprehensivenessScore_spec (denoms : List (String × Nat))
    (bools : List (String × Bool)) (k : String) (v : Nat)
    (h : (comprehensivenessScore denoms bools).lookup k = some v) :
    (v = 0 ∨ v = 1) ∧
    (v = 1 → bools.lookup k = some true) ∧
    (denoms.lookup k = some 0 → v = 0) ∧
    v ≤ (match denoms.lookup k with
         | some d => d
         | none => 1) := by
  rw [comprehensivenessScore_lookup] at h
  cases hb : bools.lookup k with
  | none => rw [hb] at h; simp at h
  | some b =>
    rw [hb] at h
    simp only [Option.map_some'] at h
    cases hd : denoms.lookup k with
    | none =>
      rw [hd] at h
      simp only [Option.some.injEq] at h
      subst h
      cases b <;> simp
    | some d =>
      rw [hd] at h
      simp only [Option.some.injEq] at h
      subst h
      cases b
      · simp
      · by_cases hdz : d = 0
        · subst hdz
          simp
        · simp [hdz]
          omega

/-- C5: for a current record the default denominator is 1 and every entry of
the `comprehensiveness` and `comprehensiveness_with_validation` mappings is
0 or 1, is 1 only when the criterion's test passes, is forced to 0 by a
zero denominator-override, and never exceeds its denominator. -/
theorem comprehensiveness_bound (rt : RefTables) (today : PyDate) (a : Activity)
    (hcur : _comprehensiveness_is_current rt today a = true) :
    comprehensiveness_denominator_default rt today a = 1 ∧
    (∀ k v, (comprehensiveness rt today a).lookup k = some v →
      (v = 0 ∨ v = 1) ∧
      (v = 1 → (_comprehensiveness_bools rt a).lookup k = some true) ∧
      ((comprehensiveness_denominators rt today a).lookup k = some 0 → v = 0) ∧
      v ≤ (match (comprehensiveness_denominators rt today a).lookup k with
           | some d => d
           | none => comprehensiveness_denominator_default rt today a)) ∧
    (∀ k v, (comprehensiveness_with_validation rt today a).lookup k = some v →
      (v = 0 ∨ v = 1) ∧
      (v = 1 → (_comprehensiveness_with_validation_bools rt a).lookup k = some true) ∧
      ((comprehensiveness_denominators rt today a).lookup k = some 0 → v = 0) ∧
      v ≤ (match (comprehensiveness_denominators rt today a).lookup k with
           | some d => d
           | none => comprehensiveness_denominator_default rt today a)) := by
  have hdef : comprehensiveness_denominator_default rt today a = 1 := by
    simp [comprehensiveness_denominator_default, hcur]
  refine ⟨hdef, ?_, ?_⟩
  · intro k v h
    rw [hdef]
    have hc : comprehensiveness rt today a =
        comprehensivenessScore (comprehensiveness_denominators rt today a)
          (_comprehensiveness_bools rt a) := by
      simp [comprehensiveness, hcur]
    rw [hc] at h
    exact comprehensivenessScore_spec _ _ _ _ h
  · intro k v h
    rw [hdef]
    have hc : comprehensiveness_with_validation rt today a =
        comprehensivenessScore (comprehensiveness_denominators rt today a)
          (_comprehensiveness_with_validation_bools rt a) := by
      simp [comprehensiveness_with_validation, hcur]
    rw [hc] at h
    exact comprehensivenessScore_spec _ _ _ _ h

theorem boolsLookupSpend (rt : RefTables) (a : Activity) :
    (_comprehensiveness_bools rt a).lookup "transaction_spend" =
      some (!(spendTransactions rt a).isEmpty) := rfl

/-- C8: for a current record the `transaction_spend` denominator entry is 1
exactly when the start date (actual preferred, else planned) is before
today and more than 365 days old; it is always 0 or 1, and a 0 forces both
numerator entries to 0. -/
theorem transaction_spend_denominator (rt : RefTables) (today : PyDate) (a : Activity)
    (hcur : _comprehensiveness_is_current rt today a = true) :
    ((comprehensiveness_denominators rt today a).lookup "transaction_spend" = some 1 ↔
      (∃ sd, comprehensivenessStartDate rt a = some sd ∧
        dateLt sd today = true ∧ dateDiff today sd > 365)) ∧
    ((comprehensiveness_denominators rt today a).lookup "transaction_spend" = some 0 ∨
      (comprehensiveness_denominators rt today a).lookup "transaction_spend" = some 1) ∧
    ((comprehensiveness_denominators rt today a).lookup "transaction_spend" = some 0 →
      (comprehensiveness rt today a).lookup "transaction_spend" = some 0 ∧
      (comprehensiveness_with_validation rt today a).lookup "transaction_spend" = some 0) := by
  have hts : (comprehensiveness_denominators rt today a).lookup "transaction_spend" =
      some (match comprehensivenessStartDate rt a with
        | some sd => if dateLt sd today && dateDiff today sd > 365 then 1 else 0
        | none => 0) := by
    simp [comprehensiveness_denominators, hcur, List.lookup]
  refine ⟨?_, ?_, ?_⟩
  · rw [hts]
    constructor
    · intro h1
      cases hsd : comprehensivenessStartDate rt a with
      | none =>
        rw [hsd] at h1
        exact absurd h1 (by simp)
      | some sd =>
        rw [hsd] at h1
        have hcb : (dateLt sd today && decide (dateDiff today sd > 365)) = true := by
          by_contra hcc
          rw [show (match some sd with
            | some sd => if dateLt sd today && dateDiff today sd > 365 then (1 : Nat) else 0
            | none => 0) = if dateLt sd today && dateDiff today sd > 365 then (1 : Nat) else 0
            from rfl, if_neg hcc] at h1
          exact absurd h1 (by simp)
        simp only [Bool.and_eq_true, decide_eq_true_eq] at hcb
        exact ⟨sd, rfl, hcb.1, hcb.2⟩
    · rintro ⟨sd2, hsd2, hlt, hdiff⟩
      rw [hsd2]
      have : (dateLt sd2 today && decide (dateDiff today sd2 > 365)) = true := by
        simp [hlt, hdiff]
      rw [show (match some sd2 with
        | some sd => if dateLt sd today && dateDiff today sd > 365 then (1 : Nat) else 0
        | none => 0) = if dateLt sd2 today && dateDiff today sd2 > 365 then (1 : Nat) else 0
        from rfl, if_pos this]
  · rw [hts]
    cases comprehensivenessStartDate rt a with
    | none => left; rfl
    | some sd =>
      by_cases hc : (dateLt sd today && decide (dateDiff today sd > 365)) = true
      · right
        rw [show (match some sd with
          | some sd => if dateLt sd today && dateDiff today sd > 365 then (1 : Nat) else 0
          | none => 0) = if dateLt sd today && dateDiff today sd > 365 then (1 : Nat) else 0
          from rfl, if_pos hc]
      · left
        rw [show (match some sd with
          | some sd => if dateLt sd today && dateDiff today sd > 365 then (1 : Nat) else 0
          | none => 0) = if dateLt sd today && dateDiff today sd > 365 then (1 : Nat) else 0
          from rfl, if_neg hc]
  · intro hz
    have hc : comprehensiveness rt today a =
        comprehensivenessScore (comprehensiveness_denominators rt today a)
          (_comprehensiveness_bools rt a) := by
      simp [comprehensiveness, hcur]
    have hcv : comprehensiveness_with_validation rt today a =
        comprehensivenessScore (comprehensiveness_denominators rt today a)
          (_comprehensiveness_with_validation_bools rt a) := by
      simp [comprehensiveness_with_validation, hcur]
    constructor
    · rw [hc, comprehensivenessScore_lookup, boolsLookupSpend, hz]
      simp
    · rw [hcv, comprehensivenessScore_lookup, validationBools_lookup, boolsLookupSpend, hz]
      simp

/-- C4 (amended): a record failing all three currency-classification rules is
non-current; its comprehensiveness numerator mappings are empty and its
default denominator is 0, but the per-criterion denominator mapping is not
absent — it holds exactly the three denominator-override criteria with
explicit zeroes. -/
theorem noncurrent_comprehensiveness (rt : RefTables) (today : PyDate) (a : Activity)
    (h1 : ¬(plannedEndDates rt a = [] ∧
      ((a.activityStatuses.filterMap id).head? = some "2" ∨
       (a.activityStatuses.filterMap id).head? = some "4")))
    (h2 : ∀ d ∈ actualEndDates rt a,
      ¬(dateLe (add_years today (-1)) d = true ∧ dateLe d today = true))
    (h3 : ∀ d ∈ plannedEndDates rt a, ¬ dateLe today d = true) :
    _comprehensiveness_is_current rt today a = false ∧
    comprehensiveness rt today a = [] ∧
    comprehensiveness_with_validation rt today a = [] ∧
    comprehensiveness_denominators rt today a =
      [("recipient_language", 0), ("transaction_spend", 0), ("transaction_traceability", 0)] ∧
    comprehensiveness_denominator_default rt today a = 0 := by
  have hcur : _comprehensiveness_is_current rt today a = false := by
    rw [Bool.eq_false_iff]
    intro hc
    unfold _comprehensiveness_is_current at hc
    simp only [Bool.or_eq_true, Bool.and_eq_true, Bool.not_eq_true', List.any_eq_true,
      List.isEmpty_eq_true, decide_eq_true_eq] at hc
    rcases hc with ((⟨⟨hpe, hne⟩, hcs⟩ | ⟨d, hd, hc1, hc2⟩) | ⟨d, hd, hc⟩)
    · exact h1 ⟨hpe, hcs⟩
    · exact h2 d hd ⟨hc1, hc2⟩
    · exact h3 d hd hc
  refine ⟨hcur, ?_, ?_, ?_, ?_⟩
  · simp [comprehensiveness, hcur]
  · simp [comprehensiveness_with_validation, hcur]
  · simp [comprehensiveness_denominators, hcur]
  · simp [comprehensiveness_denominator_default, hcur]

/-- Counterexample for C4 as stated: for the non-current sample record the
per-criterion denominator mapping is not absent — it carries three explicit
zero entries, `transaction_spend` among them. -/
theorem noncurrent_denominators_counterexample :
    _comprehensiveness_is_current rtSample todaySample actNonCurrent = false ∧
    (comprehensiveness_denominators rtSample todaySample actNonCurrent).lookup
      "transaction_spend" = some 0 ∧
    comprehensiveness_denominators rtSample todaySample actNonCurrent ≠ [] := by
  decide

/-- Closed witness for C4 (amended) at the concrete non-current record. -/
theorem noncurrent_comprehensiveness_witness :
    _comprehensiveness_is_current rtSample todaySample actNonCurrent = false ∧
    comprehensiveness rtSample todaySample actNonCurrent = [] ∧
    comprehensiveness_with_validation rtSample todaySample actNonCurrent = [] ∧
    comprehensiveness_denominators rtSample todaySample actNonCurrent =
      [("recipient_language", 0), ("transaction_spend", 0), ("transaction_traceability", 0)] ∧
    comprehensiveness_denominator_default rtSample todaySample actNonCurrent = 0 :=
  noncurrent_comprehensiveness rtSample todaySample actNonCurrent
    (by decide) (by decide) (by decide)

/-- Closed witness for C5: `actCurrent` is current, and the theorem applied
there gives default denominator 1. -/
theorem comprehensiveness_bound_witness :
    _comprehensiveness_is_current rtSample todaySample actCurrent = true ∧
    comprehensiveness_denominator_default rtSample todaySample actCurrent = 1 :=
  ⟨by decide, (comprehensiveness_bound rtSample todaySample actCurrent (by decide)).1⟩

/-- Closed witness for C8: the theorem applied to the current sample record. -/
theorem transaction_spend_denominator_witness :
    _comprehensiveness_is_current rtSample todaySample actCurrent = true ∧
    ((comprehensiveness_denominators rtSample todaySample actCurrent).lookup
      "transaction_spend" = some 1 ↔
      (∃ sd, comprehensivenessStartDate rtSample actCurrent = some sd ∧
        dateLt sd todaySample = true ∧ dateDiff todaySample sd > 365)) ∧
    ((comprehensiveness_denominators rtSample todaySample actCurrent).lookup
      "transaction_spend" = some 0 ∨
      (comprehensiveness_denominators rtSample todaySample actCurrent).lookup
      "transaction_spend" = some 1) ∧
    ((comprehensiveness_denominators rtSample todaySample actCurrent).lookup
      "transaction_spend" = some 0 →
      (comprehensiveness rtSample todaySample actCurrent).lookup "transaction_spend" = some 0 ∧
      (comprehensiveness_with_validation rtSample todaySample actCurrent).lookup
        "transaction_spend" = some 0) :=
  ⟨by decide, transaction_spend_denominator rtSample todaySample actCurrent (by decide)⟩

theorem boolsLookupLocPointPos (rt : RefTables) (a : Activity) :
    (_comprehensiveness_bools rt a).lookup "location_point_pos" =
      some (!(locationPointPos a).isEmpty) := rfl

unseal Rat.mul Rat.inv Rat.add Rat.sub in
/-- C9: `valid_coords` returns false for any string that is not two Python
Decimals separated by one space, for the origin, and for out-of-range
latitude or longitude; hence the validated `location_point_pos` criterion
is false for a record whose only location point is `"0 0"`. -/
theorem valid_coords_rejections :
    (∀ x : String,
      ((¬ ∃ c0 c1 q0 q1, splitOnChar ' ' x.toList = [c0, c1] ∧
          pythonDecimalChars c0 = some (PyDec.fin q0) ∧
          pythonDecimalChars c1 = some (PyDec.fin q1)) ∨
       (∃ c0 c1 q0 q1, splitOnChar ' ' x.toList = [c0, c1] ∧
          pythonDecimalChars c0 = some (PyDec.fin q0) ∧
          pythonDecimalChars c1 = some (PyDec.fin q1) ∧
          ((q0 = 0 ∧ q1 = 0) ∨ q0 < -90 ∨ 90 < q0 ∨ q1 < -180 ∨ 180 < q1))) →
      valid_coords x = false) ∧
    (∀ (rt : RefTables) (a : Activity),
      locationPointPos a = [some "0 0"] →
      (_comprehensiveness_with_validation_bools rt a).lookup "location_point_pos" =
        some false) := by
  constructor
  · intro x h
    unfold valid_coords
    split
    case h_2 => rfl
    case h_1 c0 c1 heq =>
      split
      case h_2 => rfl
      case h_1 lat lng hp0 hp1 =>
        cases lat with
        | nan s => simp [pyDecIsNan]
        | inf neg =>
          cases lng with
          | nan s => simp [pyDecIsNan]
          | inf neg2 =>
            cases neg <;> cases neg2 <;> simp [pyDecIsNan, pyDecEqZero, pyDecLt, pyDecGt]
          | fin q1 =>
            cases neg <;> simp [pyDecIsNan, pyDecEqZero, pyDecLt, pyDecGt]
        | fin q0 =>
          cases lng with
          | nan s => simp [pyDecIsNan]
          | inf neg2 =>
            cases neg2 <;> simp [pyDecIsNan, pyDecEqZero, pyDecLt, pyDecGt]
          | fin q1 =>
            rcases h with hno | ⟨c0', c1', q0', q1', hsp, hq0, hq1, hcond⟩
            · exact absurd ⟨c0, c1, q0, q1, heq, hp0, hp1⟩ hno
            · rw [heq] at hsp
              injection hsp with e0 rest
              injection rest with e1 _
              subst e0; subst e1
              rw [hp0] at hq0
              rw [hp1] at hq1
              injection hq0 with hq0'
              injection hq1 with hq1'
              injection hq0' with hq0''
              injection hq1' with hq1''
              subst hq0''; subst hq1''
              by_cases hz : (pyDecEqZero (PyDec.fin q0) && pyDecEqZero (PyDec.fin q1)) = true
              · simp [pyDecIsNan, hz]
              · rcases hcond with ⟨hz0, hz1⟩ | hr
                · exact absurd (by simp [pyDecEqZero, hz0, hz1]) hz
                · rcases hr with h1 | h1 | h1 | h1 <;>
                    simp [pyDecIsNan, hz, pyDecLt, pyDecGt, h1]
  · intro rt a h
    rw [validationBools_lookup, boolsLookupLocPointPos]
    simp only [Option.map_some']
    have hvu : validationUpdate rt a "location_point_pos" (!(locationPointPos a).isEmpty) =
        all_true_and_not_empty ((locationPointPos a).map valid_coords_text) := rfl
    rw [hvu, h]
    have hvc : valid_coords "0 0" = false := by decide
    simp [all_true_and_not_empty, valid_coords_text, hvc]

theorem lookup_updateAL_self {K V : Type} [DecidableEq K] [BEq K] [LawfulBEq K]
    (k : K) (dflt : V) (f : V → V) (l : List (K × V)) :
    (updateAL k dflt f l).lookup k = some (f ((l.lookup k).getD dflt)) := by
  induction l with
  | nil => simp [updateAL, List.lookup]
  | cons p rest ih =>
    rcases p with ⟨k1, v1⟩
    unfold updateAL
    by_cases h : k1 = k
    · subst h
      simp [List.lookup]
    · have hbe : (k == k1) = false := beq_eq_false_iff_ne.mpr (fun hh => h hh.symm)
      simp only [if_neg h, List.lookup, hbe]
      exact ih

theorem lookup_updateAL_ne {K V : Type} [DecidableEq K] [BEq K] [LawfulBEq K]
    (k k' : K) (dflt : V) (f : V → V) (l : List (K × V)) (hne : k' ≠ k) :
    (updateAL k dflt f l).lookup k' = l.lookup k' := by
  induction l with
  | nil =>
    have hbe : (k' == k) = false := beq_eq_false_iff_ne.mpr hne
    simp [updateAL, List.lookup, hbe]
  | cons p rest ih =>
    rcases p with ⟨k1, v1⟩
    unfold updateAL
    by_cases h : k1 = k
    · subst h
      have hbe : (k' == k1) = false := beq_eq_false_iff_ne.mpr hne
      simp [List.lookup, hbe]
    · by_cases h2 : k' = k1
      · subst h2
        simp [if_neg h, List.lookup]
      · have hbe : (k' == k1) = false := beq_eq_false_iff_ne.mpr h2
        simp only [if_neg h, List.lookup, hbe]
        exact ih

theorem getD3_upd3 (t c : Option String) (y : Int) (v : ℚ) (out : TypeMap)
    (t' c' : Option String) (y' : Int) :
    getD3 (upd3 t c y v out) t' c' y' =
      if t' = t ∧ c' = c ∧ y' = y then getD3 out t' c' y' + v
      else getD3 out t' c' y' := by
  unfold upd3 getD3
  by_cases ht : t' = t
  · subst ht
    rw [lookup_updateAL_self]
    by_cases hc : c' = c
    · subst hc
      simp only [Option.getD_some, lookup_updateAL_self]
      by_cases hy : y' = y
      · subst hy
        simp [lookup_updateAL_self]
      · simp [lookup_updateAL_ne _ _ _ _ _ hy, hy]
    · simp [lookup_updateAL_ne _ _ _ _ _ hc, hc]
  · simp [lookup_updateAL_ne _ _ _ _ _ ht, ht]

theorem getD3_foldl_upd3 (l : List (Key3 × ℚ)) (acc : TypeMap) (k : Key3) :
    getD3 (l.foldl (fun out e => upd3 e.1.1 e.1.2.1 e.1.2.2 e.2 out) acc) k.1 k.2.1 k.2.2 =
      getD3 acc k.1 k.2.1 k.2.2 + contribTotal l k := by
  induction l generalizing acc with
  | nil => simp [contribTotal]
  | cons e rest ih =>
    rw [List.foldl_cons, ih]
    rcases e with ⟨⟨t, c, y⟩, v⟩
    rcases k with ⟨t', c', y'⟩
    rw [getD3_upd3]
    by_cases hk : t' = t ∧ c' = c ∧ y' = y
    · rw [if_pos hk]
      have : ((t, c, y) : Key3) = (t', c', y') := by
        rcases hk with ⟨h1, h2, h3⟩
        subst h1; subst h2; subst h3; rfl
      simp only [contribTotal, List.filter_cons, this]
      simp [contribTotal, add_assoc]
    · rw [if_neg hk]
      have : ¬(((t, c, y) : Key3) = (t', c', y')) := by
        intro hh
        injection hh with ha hb
        injection hb with hb hc
        exact hk ⟨ha.symm, hb.symm, hc.symm⟩
      simp only [contribTotal, List.filter_cons]
      rw [if_neg (by simpa using this)]

theorem foldl_step_filterMap {α : Type} (step : TypeMap → α → TypeMap)
    (contrib : α → Option (Key3 × ℚ))
    (hstep : ∀ out x, step out x = match contrib x with
      | some e => upd3 e.1.1 e.1.2.1 e.1.2.2 e.2 out
      | none => out)
    (l : List α) (acc : TypeMap) :
    l.foldl step acc =
      (l.filterMap contrib).foldl (fun out e => upd3 e.1.1 e.1.2.1 e.1.2.2 e.2 out) acc := by
  induction l generalizing acc with
  | nil => rfl
  | cons x rest ih =>
    rw [List.foldl_cons, hstep]
    cases hx : contrib x with
    | none => rw [List.filterMap_cons_none hx]; exact ih _
    | some e => rw [List.filterMap_cons_some hx, List.foldl_cons]; exact ih _

theorem getD3_nil (t c : Option String) (y : Int) : getD3 [] t c y = 0 := rfl

theorem sumTrans_eq_fold (rt : RefTables) (a : Activity) :
    _sum_transactions_by_type_by_year rt a =
      (a.transactions.filterMap (transContribution rt a)).foldl
        (fun out e => upd3 e.1.1 e.1.2.1 e.1.2.2 e.2 out) [] := by
  unfold _sum_transactions_by_type_by_year
  refine foldl_step_filterMap _ _ ?_ _ _
  intro out t
  cases htt : t.tType with
  | none => simp only [transContribution, htt]
  | some c =>
    cases c with
    | none => simp only [transContribution, htt]
    | some code =>
      simp only [transContribution, htt]
      by_cases hc : code ∈ sumTransactionCodes rt a
      · simp only [if_pos hc]
        cases hd : t.transDate with
        | none => rfl
        | some d =>
          by_cases hy : d.year ≠ 0
          · simp only [if_pos hy]
          · simp only [if_neg hy]
      · simp only [if_neg hc]

theorem sumBudget_eq_fold (a : Activity) :
    sum_budgets_by_type_by_year a =
      (a.budgets.filterMap (budgetContribution a)).foldl
        (fun out e => upd3 e.1.1 e.1.2.1 e.1.2.2 e.2 out) [] := by
  unfold sum_budgets_by_type_by_year
  refine foldl_step_filterMap _ _ ?_ _ _
  intro out b
  cases hy : b.budgetYear with
  | none => simp only [budgetContribution, hy]
  | some y =>
    simp only [budgetContribution, hy]
    by_cases hz : y ≠ 0
    · simp only [if_pos hz]
    · simp only [if_neg hz]

theorem usdTrans_eq_fold (rt : RefTables) (table : RateTable) (a : Activity) :
    sum_transactions_by_type_by_year_usd rt table a =
      ((flatten3 (_sum_transactions_by_type_by_year rt a)).filterMap
        (usdTransContribution table)).foldl
        (fun out e => upd3 e.1.1 e.1.2.1 e.1.2.2 e.2 out) [] := by
  unfold sum_transactions_by_type_by_year_usd
  refine foldl_step_filterMap _ _ ?_ _ _
  intro out e
  rcases e with ⟨t, copt, y, v⟩
  cases copt with
  | none => rfl
  | some currency => rfl

theorem usdBudget_eq_fold (table : RateTable) (a : Activity) :
    sum_budgets_by_type_by_year_usd table a =
      ((flatten3 (sum_budgets_by_type_by_year a)).filterMap
        (usdBudgetContribution table)).foldl
        (fun out e => upd3 e.1.1 e.1.2.1 e.1.2.2 e.2 out) [] := by
  unfold sum_budgets_by_type_by_year_usd
  refine foldl_step_filterMap _ _ ?_ _ _
  intro out e
  rcases e with ⟨t, copt, y, v⟩
  cases copt with
  | none => rfl
  | some currency => rfl

/-- C6 (amended): every (type, currency, year) bucket of the four roll-ups
equals the exact rational sum of its per-item contributions; the non-USD
transaction and budget sums use the parsed Decimal values untouched, while
each USD contribution first passes through `get_USD_value`, whose binary64
float arithmetic is modelled in `usdTransContribution` and
`usdBudgetContribution`. -/
theorem sums_exact_decimal (rt : RefTables) (table : RateTable) (a : Activity) (k : Key3) :
    getD3 (_sum_transactions_by_type_by_year rt a) k.1 k.2.1 k.2.2 =
      contribTotal (a.transactions.filterMap (transContribution rt a)) k ∧
    getD3 (sum_budgets_by_type_by_year a) k.1 k.2.1 k.2.2 =
      contribTotal (a.budgets.filterMap (budgetContribution a)) k ∧
    getD3 (sum_transactions_by_type_by_year_usd rt table a) k.1 k.2.1 k.2.2 =
      contribTotal ((flatten3 (_sum_transactions_by_type_by_year rt a)).filterMap
        (usdTransContribution table)) k ∧
    getD3 (sum_budgets_by_type_by_year_usd table a) k.1 k.2.1 k.2.2 =
      contribTotal ((flatten3 (sum_budgets_by_type_by_year a)).filterMap
        (usdBudgetContribution table)) k := by
  refine ⟨?_, ?_, ?_, ?_⟩
  · rw [sumTrans_eq_fold, getD3_foldl_upd3, getD3_nil, zero_add]
  · rw [sumBudget_eq_fold, getD3_foldl_upd3, getD3_nil, zero_add]
  · rw [usdTrans_eq_fold, getD3_foldl_upd3, getD3_nil, zero_add]
  · rw [usdBudget_eq_fold, getD3_foldl_upd3, getD3_nil, zero_add]

theorem clampYear_le (y : Int) : clampYear y ≤ 2014 ∨ clampYear y = y := by
  unfold clampYear
  split
  · left; omega
  · right; rfl

theorem contribTotal_usdTrans_beyond (table : RateTable)
    (l : List (Option String × Option String × Int × ℚ)) (t : Option String) (y : Int)
    (hy : y > 2014) :
    contribTotal (l.filterMap (usdTransContribution table)) (t, some "USD", y) = 0 := by
  induction l with
  | nil => rfl
  | cons e rest ih =>
    rcases e with ⟨t', copt, y', v⟩
    cases copt with
    | none =>
      rw [List.filterMap_cons]
      simp only [usdTransContribution]
      exact ih
    | some cur =>
      rw [List.filterMap_cons]
      simp only [usdTransContribution]
      unfold contribTotal at ih ⊢
      rw [List.filter_cons, if_neg]
      · exact ih
      · simp only [decide_eq_true_eq]
        intro hh
        injection hh with h1 h2
        injection h2 with h2 h3
        have : clampYear y' ≤ 2014 := by
          unfold clampYear
          split <;> omega
        omega

theorem contribTotal_usdTrans_2014 (table : RateTable)
    (l : List (Option String × Option String × Int × ℚ)) (t : Option String) :
    contribTotal (l.filterMap (usdTransContribution table)) (t, some "USD", 2014) =
      (l.filterMap (fun e =>
        match e with
        | (t', some currency, y', v) =>
          if t' = t ∧ y' ≥ 2014 then some (get_USD_value table currency v 2014) else none
        | _ => none)).sum := by
  induction l with
  | nil => rfl
  | cons e rest ih =>
    rcases e with ⟨t', copt, y', v⟩
    cases copt with
    | none =>
      rw [List.filterMap_cons, List.filterMap_cons]
      simp only [usdTransContribution]
      exact ih
    | some cur =>
      rw [List.filterMap_cons, List.filterMap_cons]
      simp only [usdTransContribution]
      unfold contribTotal at ih ⊢
      rw [List.filter_cons]
      by_cases hk : t' = t ∧ y' ≥ 2014
      · have hcl : clampYear y' = 2014 := by
          unfold clampYear
          split <;> omega
        have hm : (((t', some "USD", clampYear y') : Key3) = (t, some "USD", 2014)) := by
          rw [hcl, hk.1]
        rw [if_pos (by simpa using hm), if_pos hk]
        simp only [List.map_cons, List.sum_cons, hcl]
        rw [ih]
      · have hm : ¬(((t', some "USD", clampYear y') : Key3) = (t, some "USD", 2014)) := by
          intro hh
          injection hh with h1 h2
          injection h2 with h2 h3
          apply hk
          constructor
          · exact h1
          · unfold clampYear at h3
            revert h3
            split <;> omega
        rw [if_neg (by simpa using hm), if_neg hk]
        exact ih

theorem contribTotal_usdBudget (table : RateTable)
    (l : List (Option String × Option String × Int × ℚ)) (t : Option String) (y : Int) :
    contribTotal (l.filterMap (usdBudgetContribution table)) (t, some "USD", y) =
      (l.filterMap (fun e =>
        match e with
        | (t', some currency, y', v) =>
          if t' = t ∧ y' = y then some (get_USD_value table currency v y') else none
        | _ => none)).sum := by
  induction l with
  | nil => rfl
  | cons e rest ih =>
    rcases e with ⟨t', copt, y', v⟩
    cases copt with
    | none =>
      rw [List.filterMap_cons, List.filterMap_cons]
      simp only [usdBudgetContribution]
      exact ih
    | some cur =>
      rw [List.filterMap_cons, List.filterMap_cons]
      simp only [usdBudgetContribution]
      unfold contribTotal at ih ⊢
      rw [List.filter_cons]
      by_cases hk : t' = t ∧ y' = y
      · have hm : (((t', some "USD", y') : Key3) = (t, some "USD", y)) := by
          rw [hk.1, hk.2]
        rw [if_pos (by simpa using hm), if_pos hk]
        simp only [List.map_cons, List.sum_cons]
        rw [ih]
      · have hm : ¬(((t', some "USD", y') : Key3) = (t, some "USD", y)) := by
          intro hh
          injection hh with h1 h2
          injection h2 with h2 h3
          exact hk ⟨h1, h3⟩
        rw [if_neg (by simpa using hm), if_neg hk]
        exact ih

/-- C7 (amended): only `sum_transactions_by_type_by_year_usd` clamps years
above 2014 — its USD buckets beyond 2014 stay 0 and the 2014 bucket absorbs
every transaction of year ≥ 2014 at the 2014 rate; the budget variant
converts each amount at its own unclamped year, and the primitive itself
(see the counterexample) returns 0 beyond the table. -/
theorem usd_year_clamp (rt : RefTables) (table : RateTable) (a : Activity)
    (t : Option String) (y : Int) :
    (y > 2014 → getD3 (sum_transactions_by_type_by_year_usd rt table a) t (some "USD") y = 0) ∧
    getD3 (sum_transactions_by_type_by_year_usd rt table a) t (some "USD") 2014 =
      ((flatten3 (_sum_transactions_by_type_by_year rt a)).filterMap (fun e =>
        match e with
        | (t', some currency, y', v) =>
          if t' = t ∧ y' ≥ 2014 then some (get_USD_value table currency v 2014) else none
        | _ => none)).sum ∧
    getD3 (sum_budgets_by_type_by_year_usd table a) t (some "USD") y =
      ((flatten3 (sum_budgets_by_type_by_year a)).filterMap (fun e =>
        match e with
        | (t', some currency, y', v) =>
          if t' = t ∧ y' = y then some (get_USD_value table currency v y') else none
        | _ => none)).sum := by
  refine ⟨?_, ?_, ?_⟩
  · intro hy
    rw [usdTrans_eq_fold]
    have := getD3_foldl_upd3 ((flatten3 (_sum_transactions_by_type_by_year rt a)).filterMap
      (usdTransContribution table)) [] (t, some "USD", y)
    rw [this, getD3_nil, zero_add]
    exact contribTotal_usdTrans_beyond table _ t y hy
  · rw [usdTrans_eq_fold]
    have := getD3_foldl_upd3 ((flatten3 (_sum_transactions_by_type_by_year rt a)).filterMap
      (usdTransContribution table)) [] (t, some "USD", 2014)
    rw [this, getD3_nil, zero_add]
    exact contribTotal_usdTrans_2014 table _ t
  · rw [usdBudget_eq_fold]
    have := getD3_foldl_upd3 ((flatten3 (sum_budgets_by_type_by_year a)).filterMap
      (usdBudgetContribution table)) [] (t, some "USD", y)
    rw [this, getD3_nil, zero_add]
    exact contribTotal_usdBudget table _ t y

set_option maxRecDepth 100000 in
unseal Rat.mul Rat.inv Rat.add Rat.sub in
theorem floatRound_tenth : floatRound (1/10 : ℚ) = 3602879701896397/36028797018963968 := by
  decide

set_option maxRecDepth 100000 in
unseal Rat.mul Rat.inv Rat.add Rat.sub in
theorem floatRound_tenth_float :
    floatRound (3602879701896397/36028797018963968 : ℚ) =
      3602879701896397/36028797018963968 := by
  decide

set_option maxRecDepth 100000 in
unseal Rat.mul Rat.inv Rat.add Rat.sub in
theorem floatDiv_one_one : floatDiv 1 1 = 1 := by decide

/-- Counterexample for C6 as stated: converting the Decimal amount 0.1 at a
recorded rate of 1 is not exact — the binary64 passage returns the float
nearest 1/10, not 1/10. -/
theorem usd_conversion_not_exact_counterexample :
    get_USD_value [("EUR", [(2013, 1)])] "EUR" (1/10) 2013 ≠
      get_USD_value_exact [("EUR", [(2013, 1)])] "EUR" (1/10) 2013 := by
  have hl : lookupRate [("EUR", [(2013, 1)])] "EUR" 2013 = some 1 := rfl
  have h1 : get_USD_value [("EUR", [(2013, 1)])] "EUR" (1/10) 2013 =
      floatMul (floatDiv 1 1) (floatRound (1/10)) := by
    unfold get_USD_value
    rw [hl]
    norm_num
  have h2 : get_USD_value_exact [("EUR", [(2013, 1)])] "EUR" (1/10) 2013 = (1/10 : ℚ) / 1 := by
    unfold get_USD_value_exact
    rw [hl]
    norm_num
  rw [h1, h2, floatDiv_one_one, floatRound_tenth]
  unfold floatMul
  rw [one_mul, floatRound_tenth_float]
  norm_num

set_option maxRecDepth 100000 in
unseal Rat.mul Rat.inv Rat.add Rat.sub in
theorem floatDiv_one_two : floatDiv 1 2 = 1/2 := by decide

set_option maxRecDepth 100000 in
unseal Rat.mul Rat.inv Rat.add Rat.sub in
theorem floatRound_hundred : floatRound (100 : ℚ) = 100 := by decide

set_option maxRecDepth 100000 in
unseal Rat.mul Rat.inv Rat.add Rat.sub in
theorem floatRound_fifty : floatRound (50 : ℚ) = 50 := by decide

/-- Counterexample for C7 as stated: the conversion primitive does not clamp
a year beyond the table (2015 yields 0), though the same amount converts at
the table's last year 2014. -/
theorem usd_primitive_no_clamp_counterexample :
    get_USD_value [("EUR", [(2014, 2)])] "EUR" 100 2015 = 0 ∧
    get_USD_value [("EUR", [(2014, 2)])] "EUR" 100 2014 = 50 := by
  constructor
  · have hl : lookupRate [("EUR", [(2014, 2)])] "EUR" 2015 = none := rfl
    unfold get_USD_value
    rw [hl]
  · have hl : lookupRate [("EUR", [(2014, 2)])] "EUR" 2014 = some 2 := rfl
    unfold get_USD_value
    rw [hl]
    norm_num
    rw [floatDiv_one_two, floatRound_hundred]
    unfold floatMul
    norm_num
    exact floatRound_fifty

theorem strLtAux_iff : ∀ as bs : List Char,
    strLtAux as bs = true ↔ List.Lex (· < ·) as bs
  | [], [] => by
    simp only [strLtAux]
    exact ⟨fun h => absurd h (by simp), fun h => by cases h⟩
  | [], _ :: _ => by
    simp only [strLtAux]
    exact ⟨fun _ => List.Lex.nil, fun _ => trivial⟩
  | _ :: _, [] => by
    simp only [strLtAux]
    exact ⟨fun h => absurd h (by simp), fun h => by cases h⟩
  | a :: as, b :: bs => by
    simp only [strLtAux]
    by_cases h1 : a.val.toNat < b.val.toNat
    · simp only [if_pos h1]
      exact ⟨fun _ => List.Lex.rel h1, fun _ => trivial⟩
    · simp only [if_neg h1]
      by_cases h2 : b.val.toNat < a.val.toNat
      · simp only [if_pos h2]
        constructor
        · intro h; exact absurd h (by simp)
        · intro h
          cases h with
          | rel hr => exact absurd (show a.val.toNat < b.val.toNat from hr) h1
          | cons _ => exact absurd h2 (lt_irrefl _)
      · simp only [if_neg h2]
        have hab : a = b := Char.ext (UInt32.ext (Nat.le_antisymm
          (Nat.le_of_not_lt h2) (Nat.le_of_not_lt h1)))
        subst hab
        rw [strLtAux_iff as bs]
        exact (List.Lex.cons_iff).symm

theorem strLtb_iff (a b : String) : strLtb a b = true ↔ a < b := by
  rw [String.lt_iff_toList_lt]
  exact strLtAux_iff a.toList b.toList

theorem keysSorted_cons {V : Type} (k : String) (v : V) (l : List (String × V)) :
    keysSorted ((k, v) :: l) = true ↔ (∀ p ∈ l, k < p.1) ∧ keysSorted l = true := by
  induction l generalizing k v with
  | nil => simp [keysSorted]
  | cons p2 rest ih =>
    rcases p2 with ⟨k2, v2⟩
    constructor
    · intro h
      unfold keysSorted at h
      simp only [Bool.and_eq_true, strLtb_iff] at h
      rcases h with ⟨hk, hs⟩
      rcases (ih k2 v2).mp hs with ⟨hall, hrest⟩
      refine ⟨?_, hs⟩
      intro p hp
      rcases List.mem_cons.mp hp with rfl | hp
      · exact hk
      · exact lt_trans hk (hall p hp)
    · rintro ⟨hall, hs⟩
      unfold keysSorted
      simp only [Bool.and_eq_true, strLtb_iff]
      exact ⟨hall (k2, v2) (List.mem_cons_self _ _), hs⟩

theorem keysSorted_tail {V : Type} (p : String × V) (l : List (String × V))
    (h : keysSorted (p :: l) = true) : keysSorted l = true :=
  ((keysSorted_cons p.1 p.2 l).mp h).2

theorem lookup_eq_none_of_forall_lt {V : Type} (k : String) (l : List (String × V))
    (h : ∀ p ∈ l, k < p.1) : l.lookup k = none := by
  induction l with
  | nil => rfl
  | cons p rest ih =>
    rcases p with ⟨k1, v1⟩
    have hk : k < k1 := h (k1, v1) (List.mem_cons_self _ _)
    have hbe : (k == k1) = false := beq_eq_false_iff_ne.mpr (ne_of_lt hk)
    simp only [List.lookup, hbe]
    exact ih (fun p hp => h p (List.mem_cons_of_mem _ hp))

theorem lookup_mem {V : Type} (k : String) (v : V) (l : List (String × V))
    (h : l.lookup k = some v) : (k, v) ∈ l := by
  induction l with
  | nil => simp [List.lookup] at h
  | cons p rest ih =>
    rcases p with ⟨k1, v1⟩
    by_cases hk : k = k1
    · subst hk
      simp only [List.lookup, beq_self_eq_true] at h
      injection h with h
      subst h
      exact List.mem_cons_self _ _
    · have hbe : (k == k1) = false := beq_eq_false_iff_ne.mpr hk
      simp only [List.lookup, hbe] at h
      exact List.mem_cons_of_mem _ (ih h)

theorem mem_mergeWith {V : Type} (op : V → V → V) (xs ys : List (String × V)) :
    ∀ p ∈ mergeWith op xs ys, p ∈ xs ∨ p ∈ ys ∨
      ∃ v1 v2, (p.1, v1) ∈ xs ∧ (p.1, v2) ∈ ys ∧ p.2 = op v1 v2 := by
  induction xs, ys using mergeWith.induct op with
  | case1 ys =>
    intro p hp
    rw [mergeWith] at hp
    exact Or.inr (Or.inl hp)
  | case2 x xs =>
    intro p hp
    rw [mergeWith] at hp
    exact Or.inl hp
  | case3 k1 v1 xs k2 v2 ys h ih =>
    intro p hp
    rw [mergeWith, if_pos h] at hp
    rcases List.mem_cons.mp hp with rfl | hp
    · exact Or.inl (List.mem_cons_self _ _)
    · rcases ih p hp with h1 | h1 | ⟨w1, w2, hw1, hw2, hw⟩
      · exact Or.inl (List.mem_cons_of_mem _ h1)
      · exact Or.inr (Or.inl h1)
      · exact Or.inr (Or.inr ⟨w1, w2, List.mem_cons_of_mem _ hw1, hw2, hw⟩)
  | case4 k1 v1 xs k2 v2 ys h h2 ih =>
    intro p hp
    rw [mergeWith, if_neg h, if_pos h2] at hp
    rcases List.mem_cons.mp hp with rfl | hp
    · exact Or.inr (Or.inl (List.mem_cons_self _ _))
    · rcases ih p hp with h1 | h1 | ⟨w1, w2, hw1, hw2, hw⟩
      · exact Or.inl h1
      · exact Or.inr (Or.inl (List.mem_cons_of_mem _ h1))
      · exact Or.inr (Or.inr ⟨w1, w2, hw1, List.mem_cons_of_mem _ hw2, hw⟩)
  | case5 k1 v1 xs k2 v2 ys h h2 ih =>
    intro p hp
    rw [mergeWith, if_neg h, if_neg h2] at hp
    have hkk : k1 = k2 := le_antisymm (le_of_not_lt h2) (le_of_not_lt h)
    rcases List.mem_cons.mp hp with rfl | hp
    · refine Or.inr (Or.inr ⟨v1, v2, List.mem_cons_self _ _, ?_, rfl⟩)
      rw [hkk]
      exact List.mem_cons_self _ _
    · rcases ih p hp with h1 | h1 | ⟨w1, w2, hw1, hw2, hw⟩
      · exact Or.inl (List.mem_cons_of_mem _ h1)
      · exact Or.inr (Or.inl (List.mem_cons_of_mem _ h1))
      · exact Or.inr (Or.inr ⟨w1, w2, List.mem_cons_of_mem _ hw1,
          List.mem_cons_of_mem _ hw2, hw⟩)

theorem keysSorted_mergeWith {V : Type} (op : V → V → V) (xs ys : List (String × V))
    (hxs : keysSorted xs = true) (hys : keysSorted ys = true) :
    keysSorted (mergeWith op xs ys) = true := by
  induction xs, ys using mergeWith.induct op with
  | case1 ys => rw [mergeWith]; exact hys
  | case2 x xs => rw [mergeWith]; exact hxs
  | case3 k1 v1 xs k2 v2 ys h ih =>
    rw [mergeWith, if_pos h]
    rcases (keysSorted_cons k1 v1 xs).mp hxs with ⟨hall1, hs1⟩
    rcases (keysSorted_cons k2 v2 ys).mp hys with ⟨hall2, hs2⟩
    refine (keysSorted_cons _ _ _).mpr ⟨?_, ih hs1 hys⟩
    intro p hp
    rcases mem_mergeWith op xs ((k2, v2) :: ys) p hp with h1 | h1 | ⟨w1, _, hw1, _, _⟩
    · exact hall1 p h1
    · rcases List.mem_cons.mp h1 with rfl | h1
      · exact h
      · exact lt_trans h (hall2 p h1)
    · exact hall1 (p.1, w1) hw1
  | case4 k1 v1 xs k2 v2 ys h h2 ih =>
    rw [mergeWith, if_neg h, if_pos h2]
    rcases (keysSorted_cons k1 v1 xs).mp hxs with ⟨hall1, hs1⟩
    rcases (keysSorted_cons k2 v2 ys).mp hys with ⟨hall2, hs2⟩
    refine (keysSorted_cons _ _ _).mpr ⟨?_, ih hxs hs2⟩
    intro p hp
    rcases mem_mergeWith op ((k1, v1) :: xs) ys p hp with h1 | h1 | ⟨w1, w2, hw1, hw2, _⟩
    · rcases List.mem_cons.mp h1 with rfl | h1
      · exact h2
      · exact lt_trans h2 (hall1 p h1)
    · exact hall2 p h1
    · exact hall2 (p.1, w2) hw2
  | case5 k1 v1 xs k2 v2 ys h h2 ih =>
    rw [mergeWith, if_neg h, if_neg h2]
    have hkk : k1 = k2 := le_antisymm (le_of_not_lt h2) (le_of_not_lt h)
    rcases (keysSorted_cons k1 v1 xs).mp hxs with ⟨hall1, hs1⟩
    rcases (keysSorted_cons k2 v2 ys).mp hys with ⟨hall2, hs2⟩
    refine (keysSorted_cons _ _ _).mpr ⟨?_, ih hs1 hs2⟩
    intro p hp
    rcases mem_mergeWith op xs ys p hp with h1 | h1 | ⟨w1, _, hw1, _, _⟩
    · exact hall1 p h1
    · rw [hkk]
      exact hall2 p h1
    · exact hall1 (p.1, w1) hw1

theorem lookup_mergeWith {V : Type} (op : V → V → V) (xs ys : List (String × V))
    (hxs : keysSorted xs = true) (hys : keysSorted ys = true) (k : String) :
    (mergeWith op xs ys).lookup k = combineOpt op (xs.lookup k) (ys.lookup k) := by
  induction xs, ys using mergeWith.induct op with
  | case1 ys =>
    rw [mergeWith]
    cases h : ys.lookup k <;> simp [combineOpt, List.lookup]
  | case2 x xs =>
    rw [mergeWith]
    cases h : (x :: xs).lookup k <;> simp [combineOpt, h, List.lookup]
  | case3 k1 v1 xs k2 v2 ys h ih =>
    rw [mergeWith, if_pos h]
    rcases (keysSorted_cons k1 v1 xs).mp hxs with ⟨hall1, hs1⟩
    rcases (keysSorted_cons k2 v2 ys).mp hys with ⟨hall2, hs2⟩
    by_cases hk : k = k1
    · subst hk
      have hbe2 : (k == k2) = false := beq_eq_false_iff_ne.mpr (ne_of_lt h)
      have hnone : ys.lookup k = none :=
        lookup_eq_none_of_forall_lt _ _ (fun p hp => lt_trans h (hall2 p hp))
      simp only [List.lookup, beq_self_eq_true, hbe2, hnone, combineOpt]
    · have hbe : (k == k1) = false := beq_eq_false_iff_ne.mpr hk
      simp only [List.lookup, hbe]
      exact ih hs1 hys
  | case4 k1 v1 xs k2 v2 ys h h2 ih =>
    rw [mergeWith, if_neg h, if_pos h2]
    rcases (keysSorted_cons k1 v1 xs).mp hxs with ⟨hall1, hs1⟩
    rcases (keysSorted_cons k2 v2 ys).mp hys with ⟨hall2, hs2⟩
    by_cases hk : k = k2
    · subst hk
      have hbe1 : (k == k1) = false := beq_eq_false_iff_ne.mpr (ne_of_lt h2)
      have hnone : xs.lookup k = none :=
        lookup_eq_none_of_forall_lt _ _ (fun p hp => lt_trans h2 (hall1 p hp))
      simp only [List.lookup, beq_self_eq_true, hbe1, hnone, combineOpt]
    · have hbe : (k == k2) = false := beq_eq_false_iff_ne.mpr hk
      simp only [List.lookup, hbe]
      exact ih hxs hs2
  | case5 k1 v1 xs k2 v2 ys h h2 ih =>
    rw [mergeWith, if_neg h, if_neg h2]
    have hkk : k1 = k2 := le_antisymm (le_of_not_lt h2) (le_of_not_lt h)
    subst hkk
    rcases (keysSorted_cons k1 v1 xs).mp hxs with ⟨hall1, hs1⟩
    rcases (keysSorted_cons k1 v2 ys).mp hys with ⟨hall2, hs2⟩
    by_cases hk : k = k1
    · subst hk
      simp only [List.lookup, beq_self_eq_true, combineOpt]
    · have hbe : (k == k1) = false := beq_eq_false_iff_ne.mpr hk
      simp only [List.lookup, hbe]
      exact ih hs1 hs2

theorem ext_sorted {V : Type} (xs ys : List (String × V))
    (hxs : keysSorted xs = true) (hys : keysSorted ys = true)
    (h : ∀ k, xs.lookup k = ys.lookup k) : xs = ys := by
  induction xs generalizing ys with
  | nil =>
    cases ys with
    | nil => rfl
    | cons p ys =>
      rcases p with ⟨k2, v2⟩
      have := h k2
      simp [List.lookup] at this
  | cons p xs ih =>
    rcases p with ⟨k1, v1⟩
    cases ys with
    | nil =>
      have := h k1
      simp [List.lookup] at this
    | cons q ys =>
      rcases q with ⟨k2, v2⟩
      rcases (keysSorted_cons k1 v1 xs).mp hxs with ⟨hall1, hs1⟩
      rcases (keysSorted_cons k2 v2 ys).mp hys with ⟨hall2, hs2⟩
      have hkk : k1 = k2 := by
        by_contra hne
        have h1 := h k1
        have h2 := h k2
        have hbe1 : (k1 == k2) = false := beq_eq_false_iff_ne.mpr hne
        have hbe2 : (k2 == k1) = false := beq_eq_false_iff_ne.mpr (fun hh => hne hh.symm)
        simp only [List.lookup, beq_self_eq_true, hbe1, hbe2] at h1 h2
        have hm1 : (k1, v1) ∈ ys := lookup_mem _ _ _ h1.symm
        have hm2 : (k2, v2) ∈ xs := lookup_mem _ _ _ h2
        exact absurd (lt_trans (hall1 _ hm2) (hall2 _ hm1)) (lt_irrefl k1)
      subst hkk
      have hv : v1 = v2 := by
        have h1 := h k1
        simp only [List.lookup, beq_self_eq_true] at h1
        injection h1
      subst hv
      congr 1
      apply ih ys hs1 hs2
      intro k
      by_cases hk : k = k1
      · subst hk
        rw [lookup_eq_none_of_forall_lt k xs (hall1), lookup_eq_none_of_forall_lt k ys (hall2)]
      · have hbe : (k == k1) = false := beq_eq_false_iff_ne.mpr hk
        have h1 := h k
        simp only [List.lookup, hbe] at h1
        exact h1

theorem statWF_succ (n : Nat) (l : StatValue (n + 1)) :
    statWF (n + 1) l = true ↔
      keysSorted l = true ∧ ∀ p ∈ svList l, statWF n p.2 = true := by
  show (keysSorted l && (svList l).all fun p => statWF n p.2) = true ↔ _
  simp [List.all_eq_true]

theorem mergeStat_succ (n : Nat) (a b : StatValue (n + 1)) :
    mergeStat (n + 1) a b = mergeWith (mergeStat n) a b := rfl

theorem statWF_mergeStat : ∀ (n : Nat) (a b : StatValue n), statWF n a = true →
    statWF n b = true → statWF n (mergeStat n a b) = true
  | 0, _, _, _, _ => rfl
  | n + 1, a, b, ha, hb => by
    rcases (statWF_succ n a).mp ha with ⟨hsa, hva⟩
    rcases (statWF_succ n b).mp hb with ⟨hsb, hvb⟩
    refine (statWF_succ n _).mpr ⟨keysSorted_mergeWith _ a b hsa hsb, ?_⟩
    intro p hp
    rcases mem_mergeWith (mergeStat n) a b p hp with h1 | h1 | ⟨v1, v2, h1, h2, hv⟩
    · exact hva p h1
    · exact hvb p h1
    · rw [hv]
      exact statWF_mergeStat n v1 v2 (hva _ h1) (hvb _ h2)

theorem mergeStat_assoc : ∀ (n : Nat) (a b c : StatValue n), statWF n a = true →
    statWF n b = true → statWF n c = true →
    mergeStat n (mergeStat n a b) c = mergeStat n a (mergeStat n b c)
  | 0, a, b, c, _, _, _ => add_assoc (show ℚ from a) (show ℚ from b) (show ℚ from c)
  | n + 1, a, b, c, ha, hb, hc => by
    rcases (statWF_succ n a).mp ha with ⟨hsa, hva⟩
    rcases (statWF_succ n b).mp hb with ⟨hsb, hvb⟩
    rcases (statWF_succ n c).mp hc with ⟨hsc, hvc⟩
    have hsab : keysSorted (mergeWith (mergeStat n) a b) = true :=
      keysSorted_mergeWith _ a b hsa hsb
    have hsbc : keysSorted (mergeWith (mergeStat n) b c) = true :=
      keysSorted_mergeWith _ b c hsb hsc
    rw [mergeStat_succ, mergeStat_succ, mergeStat_succ, mergeStat_succ]
    apply ext_sorted
    · exact keysSorted_mergeWith _ _ c hsab hsc
    · exact keysSorted_mergeWith _ a _ hsa hsbc
    · intro k
      rw [lookup_mergeWith _ _ _ hsab hsc, lookup_mergeWith _ _ _ hsa hsb,
        lookup_mergeWith _ _ _ hsa hsbc, lookup_mergeWith _ _ _ hsb hsc]
      cases hla : List.lookup k a with
      | none =>
        cases hlb : List.lookup k b with
        | none => simp [combineOpt]
        | some vb =>
          cases hlc : List.lookup k c with
          | none => simp [combineOpt]
          | some vc => simp [combineOpt]
      | some va =>
        cases hlb : List.lookup k b with
        | none => simp [combineOpt]
        | some vb =>
          cases hlc : List.lookup k c with
          | none => simp [combineOpt]
          | some vc =>
            simp only [combineOpt]
            congr 1
            exact mergeStat_assoc n va vb vc
              (hva _ (lookup_mem _ _ _ hla))
              (hvb _ (lookup_mem _ _ _ hlb))
              (hvc _ (lookup_mem _ _ _ hlc))

theorem mergeStat_comm : ∀ (n : Nat) (a b : StatValue n), statWF n a = true →
    statWF n b = true → mergeStat n a b = mergeStat n b a
  | 0, a, b, _, _ => add_comm (show ℚ from a) (show ℚ from b)
  | n + 1, a, b, ha, hb => by
    rcases (statWF_succ n a).mp ha with ⟨hsa, hva⟩
    rcases (statWF_succ n b).mp hb with ⟨hsb, hvb⟩
    rw [mergeStat_succ, mergeStat_succ]
    apply ext_sorted
    · exact keysSorted_mergeWith _ a b hsa hsb
    · exact keysSorted_mergeWith _ b a hsb hsa
    · intro k
      rw [lookup_mergeWith _ _ _ hsa hsb, lookup_mergeWith _ _ _ hsb hsa]
      cases hla : List.lookup k a with
      | none =>
        cases hlb : List.lookup k b with
        | none => simp [combineOpt]
        | some vb => simp [combineOpt]
      | some va =>
        cases hlb : List.lookup k b with
        | none => simp [combineOpt]
        | some vb =>
          simp only [combineOpt]
          congr 1
          exact mergeStat_comm n va vb
            (hva _ (lookup_mem _ _ _ hla))
            (hvb _ (lookup_mem _ _ _ hlb))

theorem statWF_empty : ∀ n : Nat, statWF n (emptyStat n) = true
  | 0 => rfl
  | _ + 1 => rfl

theorem mergeStat_empty_left : ∀ (n : Nat) (x : StatValue n),
    mergeStat n (emptyStat n) x = x
  | 0, x => zero_add (show ℚ from x)
  | n + 1, x => by
    rw [mergeStat_succ]
    show mergeWith (mergeStat n) [] x = x
    rw [mergeWith]

theorem mergeStat_empty_right : ∀ (n : Nat) (x : StatValue n),
    mergeStat n x (emptyStat n) = x
  | 0, x => add_zero (show ℚ from x)
  | n + 1, x => by
    rw [mergeStat_succ]
    show mergeWith (mergeStat n) (svList x) [] = svList x
    cases svList x with
    | nil => rw [mergeWith]
    | cons h t => rw [mergeWith]

theorem statWF_foldl (n : Nat) (l : List (StatValue n)) (a : StatValue n)
    (ha : statWF n a = true) (hl : ∀ v ∈ l, statWF n v = true) :
    statWF n (l.foldl (mergeStat n) a) = true := by
  induction l generalizing a with
  | nil => exact ha
  | cons v l ih =>
    simp only [List.foldl_cons]
    exact ih _ (statWF_mergeStat n a v ha (hl v (List.mem_cons_self v l)))
      (fun w hw => hl w (List.mem_cons_of_mem v hw))

theorem statWF_foldStats (n : Nat) (l : List (StatValue n))
    (hl : ∀ v ∈ l, statWF n v = true) : statWF n (foldStats n l) = true :=
  statWF_foldl n l (emptyStat n) (statWF_empty n) hl

theorem foldl_eq_mergeStat_foldStats (n : Nat) (l : List (StatValue n))
    (hl : ∀ v ∈ l, statWF n v = true) (a : StatValue n) (ha : statWF n a = true) :
    l.foldl (mergeStat n) a = mergeStat n a (foldStats n l) := by
  induction l generalizing a with
  | nil =>
    show a = mergeStat n a (emptyStat n)
    exact (mergeStat_empty_right n a).symm
  | cons v l ih =>
    have hv : statWF n v = true := hl v (List.mem_cons_self v l)
    have hl' : ∀ w ∈ l, statWF n w = true := fun w hw => hl w (List.mem_cons_of_mem v hw)
    have hfold : statWF n (foldStats n l) = true := statWF_foldStats n l hl'
    simp only [List.foldl_cons]
    rw [ih hl' _ (statWF_mergeStat n a v ha hv)]
    have hstep : foldStats n (v :: l) = mergeStat n v (foldStats n l) := by
      show (l.foldl (mergeStat n) (mergeStat n (emptyStat n) v)) = _
      rw [mergeStat_empty_left]
      exact ih hl' v hv
    rw [hstep]
    exact mergeStat_assoc n a v (foldStats n l) ha hv hfold

theorem treeReduce_eq_foldStats (n : Nat) (t : MergeTree n)
    (h : ∀ v ∈ treeLeaves t, statWF n v = true) :
    treeReduce t = foldStats n (treeLeaves t) := by
  induction t with
  | leaf v =>
    show v = foldStats n [v]
    show v = List.foldl (mergeStat n) (mergeStat n (emptyStat n) v) []
    rw [mergeStat_empty_left]
    rfl
  | node l r ihl ihr =>
    have hll : ∀ v ∈ treeLeaves l, statWF n v = true := fun v hv =>
      h v (by simp [treeLeaves, hv])
    have hlr : ∀ v ∈ treeLeaves r, statWF n v = true := fun v hv =>
      h v (by simp [treeLeaves, hv])
    show mergeStat n (treeReduce l) (treeReduce r) = foldStats n (treeLeaves l ++ treeLeaves r)
    rw [ihl hll, ihr hlr]
    have : foldStats n (treeLeaves l ++ treeLeaves r)
        = (treeLeaves r).foldl (mergeStat n) (foldStats n (treeLeaves l)) := by
      show (treeLeaves l ++ treeLeaves r).foldl (mergeStat n) (emptyStat n) = _
      rw [List.foldl_append]
      rfl
    rw [this]
    exact (foldl_eq_mergeStat_foldStats n (treeLeaves r) hlr _
      (statWF_foldStats n (treeLeaves l) hll)).symm

theorem foldl_perm_eq (n : Nat) {l l' : List (StatValue n)} (hp : l.Perm l')
    (hl : ∀ v ∈ l, statWF n v = true) :
    ∀ a : StatValue n, statWF n a = true →
      l.foldl (mergeStat n) a = l'.foldl (mergeStat n) a := by
  induction hp with
  | nil => intro a _; rfl
  | cons x hp ih =>
    intro a ha
    simp only [List.foldl_cons]
    exact ih (fun v hv => hl v (List.mem_cons_of_mem x hv)) _
      (statWF_mergeStat n a x ha (hl x (List.mem_cons_self x _)))
  | swap x y l =>
    intro a ha
    simp only [List.foldl_cons]
    have hx : statWF n x = true := hl x (by simp)
    have hy : statWF n y = true := hl y (by simp)
    have hrc : mergeStat n (mergeStat n a y) x = mergeStat n (mergeStat n a x) y := by
      rw [mergeStat_assoc n a y x ha hy hx, mergeStat_assoc n a x y ha hx hy,
        mergeStat_comm n y x hy hx]
    rw [hrc]
  | trans h1 h2 ih1 ih2 =>
    intro a ha
    rw [ih1 hl a ha, ih2 (fun v hv => hl v (h1.mem_iff.mpr hv)) a ha]


/-- C1: reducing a tree of pairwise merges equals folding the merge over the
leaves sequentially in any order, for well-formed values. -/
theorem merge_reduce_order_independent (n : Nat) (t : MergeTree n)
    (l : List (StatValue n)) (hwf : ∀ v ∈ treeLeaves t, statWF n v = true)
    (hperm : (treeLeaves t).Perm l) :
    treeReduce t = foldStats n l := by
  rw [treeReduce_eq_foldStats n t hwf]
  show (treeLeaves t).foldl (mergeStat n) (emptyStat n) = l.foldl (mergeStat n) (emptyStat n)
  exact foldl_perm_eq n hperm hwf (emptyStat n) (statWF_empty n)

theorem merge_reduce_order_independent_witness :
    (∀ v ∈ treeLeaves mtSample, statWF 1 v = true) ∧
    (treeLeaves mtSample).Perm mlSample ∧
    treeReduce mtSample = foldStats 1 mlSample :=
  ⟨by decide, by decide,
    merge_reduce_order_independent 1 mtSample mlSample (by decide) (by decide)⟩

/-- Closed witness for C7 (amended): with the table ending at 2014, the 2015
USD transaction bucket is 0. -/
theorem usd_year_clamp_witness :
    getD3 (sum_transactions_by_type_by_year_usd rtSample [("EUR", [(2014, 2)])] actCurrent)
      none (some "USD") 2015 = 0 :=
  (usd_year_clamp rtSample [("EUR", [(2014, 2)])] actCurrent none 2015).1 (by decide)

unseal Rat.mul Rat.inv Rat.add Rat.sub in
/-- Closed witness for C9: the origin string is rejected, and the validated
criterion is false for the record located at `"0 0"`. -/
theorem valid_coords_rejections_witness :
    valid_coords "0 0" = false ∧
    (_comprehensiveness_with_validation_bools rtSample actZeroLoc).lookup
      "location_point_pos" = some false :=
  ⟨valid_coords_rejections.1 "0 0"
    (Or.inr ⟨['0'], ['0'], 0, 0, by decide, by decide, by decide, Or.inl ⟨rfl, rfl⟩⟩),
   valid_coords_rejections.2 rtSample actZeroLoc (by decide)⟩

/-- Closed witness for C10: the self-referencing provider activity id is
erased from the counter while the foreign one is kept. -/
theorem provider_activity_id_excludes_self_witness :
    iati_identifier actTraceable = some "XI-IATI-1" ∧
    (provider_activity_id actTraceable).lookup "XI-IATI-1" = none ∧
    (provider_activity_id actTraceable).lookup "XX-OTHER" = some 1 :=
  ⟨by decide,
   provider_activity_id_excludes_self actTraceable "XI-IATI-1" (by decide),
   by decide⟩
